import Mathlib

/-!
# Verification of the Signal session / key-store management layer

A shallow embedding of the session and key-store management layer of the
two-party encrypted chat application: the five in-memory stores
(`src/lib/signal/store.ts`), the identity-bundle lifecycle
(`src/lib/signal/identities.ts`), session establishment and the message
codec (`src/lib/signal/session.ts`), the persistence codec
(`src/lib/storage.ts`) and the chat controller's load/submit logic
(`src/components/chat-view.tsx`).

Modelling conventions:

* The cryptographic engine (`@signalapp/libsignal-client`) is an external
  collaborator; it is modelled from the spec's interface contracts (spec
  sections 4.3, 4.4, 6 and the glossary).  A Curve25519 key pair is an
  abstract pair identifier (`Nat`) drawn from a monotone generator that is
  threaded explicitly; Diffie-Hellman is the symmetric unordered pairing of
  the two pair identifiers; a KEM encapsulation records the target pair and
  the encapsulation coin, and decapsulation reproduces the encapsulated
  shared secret exactly when the secret key belongs to the target pair
  (otherwise, per the KEM contract, it yields a different secret).
* Byte serialization of a library record is injective with an exact
  inverse, so a serialized record is identified with the record itself and
  base64 encoding is the tagged wrapper `B64`.
* JavaScript `Map`s are association lists with `Map.set` replace-or-append
  semantics; `Promise`-returning functions are pure state-passing
  functions; a thrown `Error` is `Except.error` carrying the thrown
  message.  UTF-8 encoding/decoding of plaintext round-trips, so message
  bodies stay `String`.
-/

namespace SignalChat

/-! ## Association-list maps (JavaScript `Map` semantics) -/

/-- `Map.get`: first entry with the key, if any. -/
def mapGet [DecidableEq α] : List (α × β) → α → Option β
  | [], _ => none
  | (k', v') :: rest, k => if k' = k then some v' else mapGet rest k

/-- `Map.set`: replace in place if the key exists, else append. -/
def mapSet [DecidableEq α] : List (α × β) → α → β → List (α × β)
  | [], k, v => [(k, v)]
  | (k', v') :: rest, k, v =>
      if k' = k then (k, v) :: rest else (k', v') :: mapSet rest k v

/-- `Map.delete`: drop every entry with the key. -/
def mapDel [DecidableEq α] : List (α × β) → α → List (α × β)
  | [], _ => []
  | (k', v') :: rest, k =>
      if k' = k then mapDel rest k else (k', v') :: mapDel rest k

/-! ## Abstract cryptographic primitives

Modelled from the spec: the "cryptographic primitives collaborator" of
spec section 6 (key-pair generation, signing, pre-key-bundle construction,
key agreement, ratchet encrypt/decrypt, KEM generation/encapsulation),
which is not part of the repository's sources. -/

/-- A Curve25519 public key: the identifier of the pair it belongs to. -/
structure PublicKey where
  pair : Nat
deriving DecidableEq, Repr

/-- A Curve25519 private key: the identifier of the pair it belongs to. -/
structure PrivateKey where
  pair : Nat
deriving DecidableEq, Repr

/-- `PrivateKey.generate()`: draw a fresh pair from the generator. -/
def generateKeyPair (g : Nat) : PrivateKey × Nat := (⟨g⟩, g + 1)

/-- `privateKey.getPublicKey()`. -/
def PrivateKey.getPublicKey (k : PrivateKey) : PublicKey := ⟨k.pair⟩

/-- `publicKey.serialize()`: a fixed-length injective byte encoding,
modelled as the singleton byte list of the pair identifier. -/
def PublicKey.serializeBytes (k : PublicKey) : List Nat := [k.pair]

/-- An Ed25519-style signature: the signing pair and the signed bytes. -/
structure Signature where
  signer : Nat
  data : List Nat
deriving DecidableEq, Repr

/-- `privateKey.sign(bytes)`. -/
def PrivateKey.sign (k : PrivateKey) (data : List Nat) : Signature :=
  ⟨k.pair, data⟩

/-- Signature verification against a public key and message. -/
def verifySignature (pub : PublicKey) (data : List Nat) (sig : Signature) : Bool :=
  sig.signer == pub.pair && sig.data == data

/-- A Kyber (KEM) key pair. -/
structure KEMKeyPair where
  pair : Nat
deriving DecidableEq, Repr

/-- A Kyber public key. -/
structure KEMPublicKey where
  pair : Nat
deriving DecidableEq, Repr

/-- A Kyber secret key. -/
structure KEMSecretKey where
  pair : Nat
deriving DecidableEq, Repr

/-- `KEMKeyPair.generate()`: draw a fresh KEM pair from the generator. -/
def KEMKeyPair.generate (g : Nat) : KEMKeyPair × Nat := (⟨g⟩, g + 1)

/-- `kemKeyPair.getPublicKey()`. -/
def KEMKeyPair.getPublicKey (k : KEMKeyPair) : KEMPublicKey := ⟨k.pair⟩

/-- `kemKeyPair.getSecretKey()`. -/
def KEMKeyPair.getSecretKey (k : KEMKeyPair) : KEMSecretKey := ⟨k.pair⟩

/-- The shared secret a KEM encapsulation produces. -/
structure SharedSecret where
  tag : Nat
  coin : Nat
deriving DecidableEq, Repr

/-- A KEM encapsulation ciphertext: the target pair and the coin. -/
structure KEMCiphertext where
  target : Nat
  coin : Nat
deriving DecidableEq, Repr

/-- Modelled from the spec: KEM encapsulation "producing a shared secret
and an encapsulation ciphertext from a recipient's public key". -/
def kemEncapsulate (pk : KEMPublicKey) (coin : Nat) : KEMCiphertext × SharedSecret :=
  (⟨pk.pair, coin⟩, ⟨pk.pair, coin⟩)

/-- Modelled from the spec: KEM decapsulation reproduces the encapsulated
shared secret exactly when the secret key belongs to the pair the
ciphertext targets; with any other secret key it yields a different
(implicit-rejection) secret. -/
def kemDecapsulate (sk : KEMSecretKey) (ct : KEMCiphertext) : SharedSecret :=
  if sk.pair = ct.target then ⟨ct.target, ct.coin⟩
  else ⟨ct.target + sk.pair + 1, ct.coin⟩

/-- Diffie-Hellman key agreement: symmetric in the two pairs. -/
def dh (a b : Nat) : Nat × Nat := (min a b, max a b)

/-! ## Library record types -/

/-- `PreKeyRecord` (one-time pre-key record). `PreKeyRecord.new(id, pub, priv)`. -/
structure PreKeyRecord where
  id : Nat
  pubPair : Nat
  privPair : Nat
deriving DecidableEq, Repr

/-- `SignedPreKeyRecord`. -/
structure SignedPreKeyRecord where
  id : Nat
  timestamp : Nat
  pubPair : Nat
  privPair : Nat
  signature : Signature
deriving DecidableEq, Repr

/-- `KyberPreKeyRecord`. `KyberPreKeyRecord.new(id, timestamp, keyPair, signature)`. -/
structure KyberPreKeyRecord where
  id : Nat
  timestamp : Nat
  pair : Nat
  signature : Signature
deriving DecidableEq, Repr

/-- The X3DH/PQXDH master secret of a session: the four Diffie-Hellman
outputs and the KEM shared secret.  Message authentication succeeds
exactly when sender and receiver derive the same value. -/
structure RootSecret where
  dh1 : Nat × Nat
  dh2 : Nat × Nat
  dh3 : Nat × Nat
  dh4 : Nat × Nat
  ss : SharedSecret
deriving DecidableEq, Repr

/-- The unacknowledged-handshake header carried by a `PreKeySignalMessage`:
the ids referencing the receiver's stores, the KEM ciphertext, the
sender's ephemeral base key and identity key. -/
structure PreKeyHeader where
  registrationId : Nat
  preKeyId : Nat
  signedPreKeyId : Nat
  kyberPreKeyId : Nat
  kyberCiphertext : KEMCiphertext
  baseKey : Nat
  identityKey : Nat
deriving DecidableEq, Repr

/-- `SessionRecord` (opaque Double Ratchet state blob): master secret,
sending counter, the pending handshake header while unacknowledged, and
the base key identifying the X3DH instance. -/
structure SessionRecord where
  root : RootSecret
  sendCounter : Nat
  pending : Option PreKeyHeader
  aliceBaseKey : Nat
deriving DecidableEq, Repr

/-- The authenticated inner payload of an encrypted message: body,
the message key (root secret) it was encrypted under, and the counter. -/
structure InnerMessage where
  body : String
  key : RootSecret
  counter : Nat
deriving DecidableEq, Repr

/-- A serialized ciphertext: either a `PreKeySignalMessage` (handshake
carrying) or a plain `SignalMessage` (steady-state ratchet). -/
inductive Ciphertext
  | preKeyMsg (header : PreKeyHeader) (message : InnerMessage)
  | whisper (message : InnerMessage)
deriving DecidableEq, Repr

/-- `CiphertextMessageType` of the library. -/
inductive CiphertextMessageType
  | PreKey
  | SignalMessage
deriving DecidableEq, Repr

/-- `IdentityChange` of the library: the two-valued result of `saveIdentity`. -/
inductive IdentityChange
  | NewOrUnchanged
  | ReplacedExisting
deriving DecidableEq, Repr

/-! ## Base64 and addresses -/

/-- Base64 encoding is injective with an exact inverse; it is modelled as
this tagged wrapper (`Buffer.from(x).toString('base64')` is `B64.mk`,
`Buffer.from(s, 'base64')` is `B64.data`). -/
structure B64 (α : Type) where
  data : α
deriving DecidableEq, Repr

/-- `ProtocolAddress`: name and device id. -/
structure ProtocolAddress where
  name : String
  deviceId : Nat
deriving DecidableEq, Repr

/-- The storage key `"name::deviceId"` used by every store. -/
def addrKey (a : ProtocolAddress) : String := s!"{a.name}::{a.deviceId}"

/-! ## The five in-memory stores (`src/lib/signal/store.ts`)

Each store keeps serialized record bytes in a `Map`; serialized bytes are
identified with the record value (byte serialization is injective with an
exact inverse), so `get` returning `Record.deserialize(bytes)` is
returning the stored value. -/

/-- `InMemorySessionStore`. -/
structure InMemorySessionStore where
  state : List (String × SessionRecord)
deriving DecidableEq, Repr

/-- `saveSession(name, record)`. -/
def InMemorySessionStore.saveSession (st : InMemorySessionStore)
    (name : ProtocolAddress) (record : SessionRecord) : InMemorySessionStore :=
  ⟨mapSet st.state (addrKey name) record⟩

/-- `getSession(name)`: `null` (here `none`) when absent. -/
def InMemorySessionStore.getSession (st : InMemorySessionStore)
    (name : ProtocolAddress) : Option SessionRecord :=
  mapGet st.state (addrKey name)

/-- `InMemorySessionStore.serialize()`. -/
def InMemorySessionStore.serialize (st : InMemorySessionStore) :
    List (String × B64 SessionRecord) :=
  st.state.map fun kv => (kv.1, ⟨kv.2⟩)

/-- `InMemorySessionStore.deserialize(data)`: clears existing state, then
sets every decoded entry. -/
def InMemorySessionStore.deserialize (_st : InMemorySessionStore)
    (data : List (String × B64 SessionRecord)) : InMemorySessionStore :=
  ⟨data.foldl (fun m kv => mapSet m kv.1 kv.2.data) []⟩

/-- `InMemoryIdentityKeyStore`: peers' identity keys, our registration id
and identity private key (constructor parameters). -/
structure InMemoryIdentityKeyStore where
  idKeys : List (String × PublicKey)
  localRegistrationId : Nat
  identityKey : PrivateKey
deriving DecidableEq, Repr

/-- `getIdentityKey()`. -/
def InMemoryIdentityKeyStore.getIdentityKey (st : InMemoryIdentityKeyStore) :
    PrivateKey := st.identityKey

/-- `getLocalRegistrationId()`. -/
def InMemoryIdentityKeyStore.getLocalRegistrationId
    (st : InMemoryIdentityKeyStore) : Nat := st.localRegistrationId

/-- `isTrustedIdentity(...)`: trust on first use, always `true`. -/
def InMemoryIdentityKeyStore.isTrustedIdentity (_st : InMemoryIdentityKeyStore)
    (_name : ProtocolAddress) (_key : PublicKey) : Bool := true

/-- `currentBytes.every((byte, i) => byte === newBytes[i])`: JavaScript
`Array.every` over the current key's bytes, comparing positionally against
the new key's bytes (an index past the end of `newBytes` reads
`undefined`, which compares unequal to any byte). -/
def everyByteEq : List Nat → List Nat → Bool
  | [], _ => true
  | _ :: _, [] => false
  | a :: as, b :: bs => a == b && everyByteEq as bs

/-- `saveIdentity(name, key)`: stores the key, then reports
`ReplacedExisting` when `changed` (initialized `true`, refuted only by a
byte-for-byte match with a previously stored key), else `NewOrUnchanged`. -/
def InMemoryIdentityKeyStore.saveIdentity (st : InMemoryIdentityKeyStore)
    (name : ProtocolAddress) (key : PublicKey) :
    InMemoryIdentityKeyStore × IdentityChange :=
  let idx := addrKey name
  let currentKey := mapGet st.idKeys idx
  let st' := { st with idKeys := mapSet st.idKeys idx key }
  let changed :=
    match currentKey with
    | some ck => !everyByteEq ck.serializeBytes key.serializeBytes
    | none => true
  (st', if changed then .ReplacedExisting else .NewOrUnchanged)

/-- `getIdentity(name)`. -/
def InMemoryIdentityKeyStore.getIdentity (st : InMemoryIdentityKeyStore)
    (name : ProtocolAddress) : Option PublicKey :=
  mapGet st.idKeys (addrKey name)

/-- The serialized identity store: own key, registration id, peers' keys. -/
structure SerializedIdentity where
  identityKey : B64 PrivateKey
  registrationId : Nat
  identityKeys : List (String × B64 PublicKey)
deriving DecidableEq, Repr

/-- `InMemoryIdentityKeyStore.serialize()`. -/
def InMemoryIdentityKeyStore.serialize (st : InMemoryIdentityKeyStore) :
    SerializedIdentity :=
  { identityKey := ⟨st.identityKey⟩
    registrationId := st.localRegistrationId
    identityKeys := st.idKeys.map fun kv => (kv.1, ⟨kv.2⟩) }

/-- Instance `deserialize(data)`: restores the peers' key map only; the
own identity key and registration id stay the constructor-supplied ones. -/
def InMemoryIdentityKeyStore.deserialize (st : InMemoryIdentityKeyStore)
    (data : SerializedIdentity) : InMemoryIdentityKeyStore :=
  { st with
    idKeys := data.identityKeys.foldl (fun m kv => mapSet m kv.1 kv.2.data) [] }

/-- Static `InMemoryIdentityKeyStore.deserialize(data)`: builds a complete
store, identity key and registration id included. -/
def InMemoryIdentityKeyStore.reconstruct (data : SerializedIdentity) :
    InMemoryIdentityKeyStore :=
  { idKeys := data.identityKeys.foldl (fun m kv => mapSet m kv.1 kv.2.data) []
    localRegistrationId := data.registrationId
    identityKey := data.identityKey.data }

/-- `InMemoryPreKeyStore`. -/
structure InMemoryPreKeyStore where
  state : List (Nat × PreKeyRecord)
deriving DecidableEq, Repr

/-- `savePreKey(id, record)`. -/
def InMemoryPreKeyStore.savePreKey (st : InMemoryPreKeyStore)
    (id : Nat) (record : PreKeyRecord) : InMemoryPreKeyStore :=
  ⟨mapSet st.state id record⟩

/-- `getPreKey(id)`: throws `` `pre-key ${id} not found` `` when absent
(the spec's `KeyNotFoundError`). -/
def InMemoryPreKeyStore.getPreKey (st : InMemoryPreKeyStore)
    (id : Nat) : Except String PreKeyRecord :=
  match mapGet st.state id with
  | none => .error s!"pre-key {id} not found"
  | some r => .ok r

/-- `removePreKey(id)`. -/
def InMemoryPreKeyStore.removePreKey (st : InMemoryPreKeyStore)
    (id : Nat) : InMemoryPreKeyStore :=
  ⟨mapDel st.state id⟩

/-- `InMemoryPreKeyStore.serialize()`. -/
def InMemoryPreKeyStore.serialize (st : InMemoryPreKeyStore) :
    List (Nat × B64 PreKeyRecord) :=
  st.state.map fun kv => (kv.1, ⟨kv.2⟩)

/-- `InMemoryPreKeyStore.deserialize(data)`. -/
def InMemoryPreKeyStore.deserialize (_st : InMemoryPreKeyStore)
    (data : List (Nat × B64 PreKeyRecord)) : InMemoryPreKeyStore :=
  ⟨data.foldl (fun m kv => mapSet m kv.1 kv.2.data) []⟩

/-- `InMemorySignedPreKeyStore`. -/
structure InMemorySignedPreKeyStore where
  state : List (Nat × SignedPreKeyRecord)
deriving DecidableEq, Repr

/-- `saveSignedPreKey(id, record)`. -/
def InMemorySignedPreKeyStore.saveSignedPreKey (st : InMemorySignedPreKeyStore)
    (id : Nat) (record : SignedPreKeyRecord) : InMemorySignedPreKeyStore :=
  ⟨mapSet st.state id record⟩

/-- `getSignedPreKey(id)`: throws `` `signed pre-key ${id} not found` ``
when absent (the spec's `KeyNotFoundError`). -/
def InMemorySignedPreKeyStore.getSignedPreKey (st : InMemorySignedPreKeyStore)
    (id : Nat) : Except String SignedPreKeyRecord :=
  match mapGet st.state id with
  | none => .error s!"signed pre-key {id} not found"
  | some r => .ok r

/-- `InMemorySignedPreKeyStore.serialize()`. -/
def InMemorySignedPreKeyStore.serialize (st : InMemorySignedPreKeyStore) :
    List (Nat × B64 SignedPreKeyRecord) :=
  st.state.map fun kv => (kv.1, ⟨kv.2⟩)

/-- `InMemorySignedPreKeyStore.deserialize(data)`. -/
def InMemorySignedPreKeyStore.deserialize (_st : InMemorySignedPreKeyStore)
    (data : List (Nat × B64 SignedPreKeyRecord)) : InMemorySignedPreKeyStore :=
  ⟨data.foldl (fun m kv => mapSet m kv.1 kv.2.data) []⟩

/-- `InMemoryKyberPreKeyStore`. -/
structure InMemoryKyberPreKeyStore where
  state : List (Nat × KyberPreKeyRecord)
deriving DecidableEq, Repr

/-- `saveKyberPreKey(id, record)`. -/
def InMemoryKyberPreKeyStore.saveKyberPreKey (st : InMemoryKyberPreKeyStore)
    (id : Nat) (record : KyberPreKeyRecord) : InMemoryKyberPreKeyStore :=
  ⟨mapSet st.state id record⟩

/-- `getKyberPreKey(id)`: throws `` `kyber pre-key ${id} not found` ``
when absent (the spec's `KeyNotFoundError`). -/
def InMemoryKyberPreKeyStore.getKyberPreKey (st : InMemoryKyberPreKeyStore)
    (id : Nat) : Except String KyberPreKeyRecord :=
  match mapGet st.state id with
  | none => .error s!"kyber pre-key {id} not found"
  | some r => .ok r

/-- `markKyberPreKeyUsed(...)`: a no-op in this implementation. -/
def InMemoryKyberPreKeyStore.markKyberPreKeyUsed (st : InMemoryKyberPreKeyStore)
    (_kyberPreKeyId : Nat) : InMemoryKyberPreKeyStore := st

/-- `InMemoryKyberPreKeyStore.serialize()`. -/
def InMemoryKyberPreKeyStore.serialize (st : InMemoryKyberPreKeyStore) :
    List (Nat × B64 KyberPreKeyRecord) :=
  st.state.map fun kv => (kv.1, ⟨kv.2⟩)

/-- `InMemoryKyberPreKeyStore.deserialize(data)`. -/
def InMemoryKyberPreKeyStore.deserialize (_st : InMemoryKyberPreKeyStore)
    (data : List (Nat × B64 KyberPreKeyRecord)) : InMemoryKyberPreKeyStore :=
  ⟨data.foldl (fun m kv => mapSet m kv.1 kv.2.data) []⟩

/-- `SignalStores`: the five stores of one party (`KeyStoreCollection`). -/
structure SignalStores where
  session : InMemorySessionStore
  identity : InMemoryIdentityKeyStore
  preKey : InMemoryPreKeyStore
  signedPreKey : InMemorySignedPreKeyStore
  kyberPreKey : InMemoryKyberPreKeyStore
deriving DecidableEq, Repr

/-- `SerializedStores`: the durable form of a `KeyStoreCollection`. -/
structure SerializedStores where
  session : List (String × B64 SessionRecord)
  identity : SerializedIdentity
  preKey : List (Nat × B64 PreKeyRecord)
  signedPreKey : List (Nat × B64 SignedPreKeyRecord)
  kyberPreKey : List (Nat × B64 KyberPreKeyRecord)
deriving DecidableEq, Repr

/-! ## Identity bundles (`src/lib/signal/identities.ts`) -/

/-- `PreKeyData`: one one-time pre-key of a bundle. -/
structure PreKeyData where
  id : Nat
  publicKey : PublicKey
  privateKey : PrivateKey
deriving DecidableEq, Repr

/-- The signed pre-key of a bundle. -/
structure SignedPreKeyData where
  id : Nat
  timestamp : Nat
  publicKey : PublicKey
  privateKey : PrivateKey
  signature : Signature
deriving DecidableEq, Repr

/-- The Kyber post-quantum pre-key of a bundle. -/
structure KyberPreKeyData where
  id : Nat
  timestamp : Nat
  publicKey : KEMPublicKey
  secretKey : KEMSecretKey
  signature : Signature
deriving DecidableEq, Repr

/-- The identity key pair of a bundle. -/
structure IdentityKeyPairData where
  privateKey : PrivateKey
  publicKey : PublicKey
deriving DecidableEq, Repr

/-- `IdentityBundle`: the complete cryptographic identity of one party. -/
structure IdentityBundle where
  registrationId : Nat
  identityKeyPair : IdentityKeyPairData
  signedPreKey : SignedPreKeyData
  preKeys : List PreKeyData
  kyberPreKey : KyberPreKeyData
deriving DecidableEq, Repr

/-- The kind of randomness source a sampling call draws from:
`Math.random()` is a non-cryptographic PRNG, `crypto.getRandomValues` /
the library's OS entropy is cryptographically secure. -/
inductive RandomSource
  | mathRandom
  | cryptoSecure
deriving DecidableEq, Repr

/-- `generateRegistrationId()`: `Math.floor(Math.random() * 16380) + 1`,
as a function of the sampled `Math.random()` value `r` (a number in
`[0, 1)`). -/
def generateRegistrationId (r : ℚ) : Nat := (⌊r * 16380⌋ + 1).toNat

/-- The randomness source `generateRegistrationId` samples from: the call
in the source is `Math.random()`, JavaScript's non-cryptographic PRNG. -/
def generateRegistrationIdSource : RandomSource := .mathRandom

/-- `createIdentityBundle()`: identity key pair, registration id, signed
pre-key (id 1) signed by the identity key, ten one-time pre-keys with ids
1..10, and a Kyber pre-key (id 1) signed by the identity key.  `r` is the
`Math.random()` sample for the registration id, `now` the `Date.now()`
clock, `g` the key generator; key pairs are drawn in source order. -/
def createIdentityBundle (r : ℚ) (now : Nat) (g : Nat) : IdentityBundle × Nat :=
  let (identityKeyPair, g) := generateKeyPair g
  let registrationId := generateRegistrationId r
  let signedPreKeyId := 1
  let (signedPreKey, g) := generateKeyPair g
  let signedPreKeySignature :=
    identityKeyPair.sign signedPreKey.getPublicKey.serializeBytes
  let rec genPreKeys (i : Nat) (g : Nat) : List PreKeyData × Nat :=
    match i with
    | 0 => ([], g)
    | n + 1 =>
      let (preKey, g) := generateKeyPair g
      let (rest, g') := genPreKeys n (g)
      ({ id := 11 - (n + 1), publicKey := preKey.getPublicKey,
         privateKey := preKey } :: rest, g')
  let (preKeys, g) := genPreKeys 10 g
  let kyberPreKeyId := 1
  let (kyberKeyPair, g) := KEMKeyPair.generate g
  let kyberPreKeySignature :=
    identityKeyPair.sign [kyberKeyPair.getPublicKey.pair]
  ({ registrationId
     identityKeyPair :=
       { privateKey := identityKeyPair
         publicKey := identityKeyPair.getPublicKey }
     signedPreKey :=
       { id := signedPreKeyId, timestamp := now
         publicKey := signedPreKey.getPublicKey, privateKey := signedPreKey
         signature := signedPreKeySignature }
     preKeys
     kyberPreKey :=
       { id := kyberPreKeyId, timestamp := now
         publicKey := kyberKeyPair.getPublicKey
         secretKey := kyberKeyPair.getSecretKey
         signature := kyberPreKeySignature } }, g)

/-- `populateStores(bundle, stores)`: saves every one-time pre-key and the
signed pre-key from the bundle, but builds the `KyberPreKeyRecord` from a
*fresh* `KEMKeyPair.generate()` (only id, timestamp and signature come
from the bundle).  Returns the three updated stores and the generator. -/
def populateStores (bundle : IdentityBundle)
    (preKey : InMemoryPreKeyStore) (signedPreKey : InMemorySignedPreKeyStore)
    (kyberPreKey : InMemoryKyberPreKeyStore) (g : Nat) :
    InMemoryPreKeyStore × InMemorySignedPreKeyStore ×
      InMemoryKyberPreKeyStore × Nat :=
  let preKey := bundle.preKeys.foldl
    (fun st pk => st.savePreKey pk.id
      { id := pk.id, pubPair := pk.publicKey.pair
        privPair := pk.privateKey.pair })
    preKey
  let signedPreKey := signedPreKey.saveSignedPreKey bundle.signedPreKey.id
    { id := bundle.signedPreKey.id
      timestamp := bundle.signedPreKey.timestamp
      pubPair := bundle.signedPreKey.publicKey.pair
      privPair := bundle.signedPreKey.privateKey.pair
      signature := bundle.signedPreKey.signature }
  let (kyberKeyPair, g) := KEMKeyPair.generate g
  let kyberPreKeyRecord : KyberPreKeyRecord :=
    { id := bundle.kyberPreKey.id
      timestamp := bundle.kyberPreKey.timestamp
      pair := kyberKeyPair.pair
      signature := bundle.kyberPreKey.signature }
  let kyberPreKey :=
    kyberPreKey.saveKyberPreKey bundle.kyberPreKey.id kyberPreKeyRecord
  (preKey, signedPreKey, kyberPreKey, g)

/-- The serialized one-time pre-key. -/
structure SerializedPreKey where
  id : Nat
  publicKey : B64 PublicKey
  privateKey : B64 PrivateKey
deriving DecidableEq, Repr

/-- The serialized signed pre-key. -/
structure SerializedSignedPreKey where
  id : Nat
  timestamp : Nat
  publicKey : B64 PublicKey
  privateKey : B64 PrivateKey
  signature : B64 Signature
deriving DecidableEq, Repr

/-- The serialized Kyber pre-key. -/
structure SerializedKyberPreKey where
  id : Nat
  timestamp : Nat
  publicKey : B64 KEMPublicKey
  secretKey : B64 KEMSecretKey
  signature : B64 Signature
deriving DecidableEq, Repr

/-- The serialized identity key pair. -/
structure SerializedIdentityKeyPair where
  privateKey : B64 PrivateKey
  publicKey : B64 PublicKey
deriving DecidableEq, Repr

/-- `SerializedIdentityBundle`: the JSON form of an identity bundle. -/
structure SerializedIdentityBundle where
  registrationId : Nat
  identityKeyPair : SerializedIdentityKeyPair
  signedPreKey : SerializedSignedPreKey
  preKeys : List SerializedPreKey
  kyberPreKey : SerializedKyberPreKey
deriving DecidableEq, Repr

/-- `serializeIdentityBundle(bundle)`: every key base64-encoded, ids and
timestamps copied. -/
def serializeIdentityBundle (bundle : IdentityBundle) :
    SerializedIdentityBundle :=
  { registrationId := bundle.registrationId
    identityKeyPair :=
      { privateKey := ⟨bundle.identityKeyPair.privateKey⟩
        publicKey := ⟨bundle.identityKeyPair.publicKey⟩ }
    signedPreKey :=
      { id := bundle.signedPreKey.id
        timestamp := bundle.signedPreKey.timestamp
        publicKey := ⟨bundle.signedPreKey.publicKey⟩
        privateKey := ⟨bundle.signedPreKey.privateKey⟩
        signature := ⟨bundle.signedPreKey.signature⟩ }
    preKeys := bundle.preKeys.map fun pk =>
      { id := pk.id, publicKey := ⟨pk.publicKey⟩
        privateKey := ⟨pk.privateKey⟩ }
    kyberPreKey :=
      { id := bundle.kyberPreKey.id
        timestamp := bundle.kyberPreKey.timestamp
        publicKey := ⟨bundle.kyberPreKey.publicKey⟩
        secretKey := ⟨bundle.kyberPreKey.secretKey⟩
        signature := ⟨bundle.kyberPreKey.signature⟩ } }

/-- `deserializeIdentityBundle(data)`: decodes every field from the
serialized data *except* the Kyber key pair, whose `publicKey` and
`secretKey` are taken from two independent fresh `KEMKeyPair.generate()`
calls (evaluated in field order), discarding the persisted Kyber keys. -/
def deserializeIdentityBundle (data : SerializedIdentityBundle) (g : Nat) :
    IdentityBundle × Nat :=
  let (kemPairForPublic, g) := KEMKeyPair.generate g
  let (kemPairForSecret, g) := KEMKeyPair.generate g
  ({ registrationId := data.registrationId
     identityKeyPair :=
       { privateKey := data.identityKeyPair.privateKey.data
         publicKey := data.identityKeyPair.publicKey.data }
     signedPreKey :=
       { id := data.signedPreKey.id
         timestamp := data.signedPreKey.timestamp
         publicKey := data.signedPreKey.publicKey.data
         privateKey := data.signedPreKey.privateKey.data
         signature := data.signedPreKey.signature.data }
     preKeys := data.preKeys.map fun pk =>
       { id := pk.id, publicKey := pk.publicKey.data
         privateKey := pk.privateKey.data }
     kyberPreKey :=
       { id := data.kyberPreKey.id
         timestamp := data.kyberPreKey.timestamp
         publicKey := kemPairForPublic.getPublicKey
         secretKey := kemPairForSecret.getSecretKey
         signature := data.kyberPreKey.signature.data } }, g)

/-! ## Session establishment and the message codec (`src/lib/signal/session.ts`)

`processPreKeyBundle`, `signalEncrypt`, `signalDecrypt` and
`signalDecryptPreKey` are the external engine's operations; they are
modelled from the spec (sections 4.3, 4.4, 6): X3DH/PQXDH key agreement
producing a master secret from the four Diffie-Hellman outputs plus the
KEM shared secret, message authentication succeeding exactly when sender
and receiver derive the same master secret, the one-time pre-key consumed
(removed) after a successful handshake decrypt. -/

/-- `PreKeyBundle.new(...)`: the public "business card" of one party, in
the argument order of the library call. -/
structure PreKeyBundle where
  registrationId : Nat
  deviceId : Nat
  preKeyId : Nat
  preKeyPublic : PublicKey
  signedPreKeyId : Nat
  signedPreKeyPublic : PublicKey
  signedPreKeySignature : Signature
  identityKey : PublicKey
  kyberPreKeyId : Nat
  kyberPreKeyPublic : KEMPublicKey
  kyberPreKeySignature : Signature
deriving DecidableEq, Repr

/-- `EncryptionResult`: ciphertext plus its message type. -/
structure EncryptionResult where
  ciphertext : Ciphertext
  messageType : CiphertextMessageType
deriving DecidableEq, Repr

/-- Modelled from the spec: `processPreKeyBundle(bundle, address, session,
identity)` — verify the signed and Kyber pre-key signatures, run the
sender side of X3DH/PQXDH against the bundle's public keys (fresh base
key, KEM encapsulation against the bundle's Kyber public key), store the
resulting unacknowledged session under the address, and record the peer's
identity key. -/
def processPreKeyBundle (bundle : PreKeyBundle) (address : ProtocolAddress)
    (session : InMemorySessionStore) (identity : InMemoryIdentityKeyStore)
    (g : Nat) :
    Except String (InMemorySessionStore × InMemoryIdentityKeyStore × Nat) :=
  if !verifySignature bundle.identityKey
      bundle.signedPreKeyPublic.serializeBytes bundle.signedPreKeySignature then
    .error "invalid signed pre-key signature"
  else if !verifySignature bundle.identityKey
      [bundle.kyberPreKeyPublic.pair] bundle.kyberPreKeySignature then
    .error "invalid kyber pre-key signature"
  else
    let (baseKey, g) := generateKeyPair g
    let (ct, ss) := kemEncapsulate bundle.kyberPreKeyPublic g
    let g := g + 1
    let root : RootSecret :=
      { dh1 := dh identity.identityKey.pair bundle.signedPreKeyPublic.pair
        dh2 := dh baseKey.pair bundle.identityKey.pair
        dh3 := dh baseKey.pair bundle.signedPreKeyPublic.pair
        dh4 := dh baseKey.pair bundle.preKeyPublic.pair
        ss := ss }
    let header : PreKeyHeader :=
      { registrationId := identity.localRegistrationId
        preKeyId := bundle.preKeyId
        signedPreKeyId := bundle.signedPreKeyId
        kyberPreKeyId := bundle.kyberPreKeyId
        kyberCiphertext := ct
        baseKey := baseKey.pair
        identityKey := identity.identityKey.pair }
    let record : SessionRecord :=
      { root := root, sendCounter := 0, pending := some header
        aliceBaseKey := baseKey.pair }
    let session := session.saveSession address record
    let (identity, _) := identity.saveIdentity address bundle.identityKey
    .ok (session, identity, g)

/-- `establishSession(userIdentity, assistantIdentity, userStores,
assistantStores)`: build both parties' pre-key bundles (registration id,
device 1, pre-key `preKeys[0]`, signed pre-key, identity key, Kyber
pre-key) and process each bundle from the other party's perspective. -/
def establishSession (userIdentity assistantIdentity : IdentityBundle)
    (userStores assistantStores : SignalStores) (g : Nat) :
    Except String (SignalStores × SignalStores × Nat) := do
  let userAddress : ProtocolAddress := ⟨"user", 1⟩
  let assistantAddress : ProtocolAddress := ⟨"assistant", 1⟩
  let some userFirstPreKey := userIdentity.preKeys.head?
    | .error "userIdentity.preKeys[0] is undefined"
  let some assistantFirstPreKey := assistantIdentity.preKeys.head?
    | .error "assistantIdentity.preKeys[0] is undefined"
  let userPreKeyBundle : PreKeyBundle :=
    { registrationId := userIdentity.registrationId
      deviceId := 1
      preKeyId := userFirstPreKey.id
      preKeyPublic := userFirstPreKey.publicKey
      signedPreKeyId := userIdentity.signedPreKey.id
      signedPreKeyPublic := userIdentity.signedPreKey.publicKey
      signedPreKeySignature := userIdentity.signedPreKey.signature
      identityKey := userIdentity.identityKeyPair.publicKey
      kyberPreKeyId := userIdentity.kyberPreKey.id
      kyberPreKeyPublic := userIdentity.kyberPreKey.publicKey
      kyberPreKeySignature := userIdentity.kyberPreKey.signature }
  let assistantPreKeyBundle : PreKeyBundle :=
    { registrationId := assistantIdentity.registrationId
      deviceId := 1
      preKeyId := assistantFirstPreKey.id
      preKeyPublic := assistantFirstPreKey.publicKey
      signedPreKeyId := assistantIdentity.signedPreKey.id
      signedPreKeyPublic := assistantIdentity.signedPreKey.publicKey
      signedPreKeySignature := assistantIdentity.signedPreKey.signature
      identityKey := assistantIdentity.identityKeyPair.publicKey
      kyberPreKeyId := assistantIdentity.kyberPreKey.id
      kyberPreKeyPublic := assistantIdentity.kyberPreKey.publicKey
      kyberPreKeySignature := assistantIdentity.kyberPreKey.signature }
  let (uSession, uIdentity, g) ← processPreKeyBundle assistantPreKeyBundle
    assistantAddress userStores.session userStores.identity g
  let (aSession, aIdentity, g) ← processPreKeyBundle userPreKeyBundle
    userAddress assistantStores.session assistantStores.identity g
  .ok ({ userStores with session := uSession, identity := uIdentity },
       { assistantStores with session := aSession, identity := aIdentity }, g)

/-- Modelled from the spec: `signalEncrypt(bytes, address, session,
identity)` — look up the session for the address, derive the message key
from the master secret and the sending counter, advance the counter, and
return a handshake-carrying message while the session is unacknowledged,
a steady-state ratchet message otherwise. -/
def signalEncrypt (messageBytes : String) (address : ProtocolAddress)
    (session : InMemorySessionStore) :
    Except String (Ciphertext × CiphertextMessageType × InMemorySessionStore) :=
  match session.getSession address with
  | none => .error s!"session with {addrKey address} not found"
  | some record =>
    let inner : InnerMessage :=
      { body := messageBytes, key := record.root, counter := record.sendCounter }
    let session := session.saveSession address
      { record with sendCounter := record.sendCounter + 1 }
    match record.pending with
    | some header => .ok (.preKeyMsg header inner, .PreKey, session)
    | none => .ok (.whisper inner, .SignalMessage, session)

/-- Modelled from the spec: `signalDecryptPreKey(message, address,
session, identity, preKey, signedPreKey, kyberPreKey)` — if no session for
this X3DH instance exists yet, look the referenced signed, one-time and
Kyber pre-keys up in the stores by id (fatal if absent), decapsulate, and
rederive the master secret from the receiver's own private keys; on
successful authentication save the new session, record the sender's
identity key and consume (remove) the one-time pre-key.  A failed
authentication raises and leaves every store unchanged. -/
def signalDecryptPreKey (header : PreKeyHeader) (inner : InnerMessage)
    (address : ProtocolAddress) (stores : SignalStores) :
    Except String (String × SignalStores) :=
  match stores.session.getSession address with
  | some record =>
    if record.aliceBaseKey = header.baseKey then
      -- this handshake message was already processed: reuse the session
      if inner.key = record.root then .ok (inner.body, stores)
      else .error "decryption failed: message authentication failure"
    else
      signalDecryptPreKeyFresh header inner address stores
  | none => signalDecryptPreKeyFresh header inner address stores
where
  /-- The fresh-session (X3DH responder) path. -/
  signalDecryptPreKeyFresh (header : PreKeyHeader) (inner : InnerMessage)
      (address : ProtocolAddress) (stores : SignalStores) :
      Except String (String × SignalStores) :=
    match stores.signedPreKey.getSignedPreKey header.signedPreKeyId with
    | .error e => .error e
    | .ok signedRecord =>
      match stores.preKey.getPreKey header.preKeyId with
      | .error e => .error e
      | .ok preKeyRecord =>
        match stores.kyberPreKey.getKyberPreKey header.kyberPreKeyId with
        | .error e => .error e
        | .ok kyberRecord =>
          let ss := kemDecapsulate ⟨kyberRecord.pair⟩ header.kyberCiphertext
          let root : RootSecret :=
            { dh1 := dh signedRecord.privPair header.identityKey
              dh2 := dh stores.identity.identityKey.pair header.baseKey
              dh3 := dh signedRecord.privPair header.baseKey
              dh4 := dh preKeyRecord.privPair header.baseKey
              ss := ss }
          if inner.key = root then
            let newRecord : SessionRecord :=
              { root := root, sendCounter := 0, pending := none
                aliceBaseKey := header.baseKey }
            let session := stores.session.saveSession address newRecord
            let (identity, _) :=
              stores.identity.saveIdentity address ⟨header.identityKey⟩
            let preKey := stores.preKey.removePreKey header.preKeyId
            .ok (inner.body,
              { stores with
                session := session, identity := identity, preKey := preKey })
          else
            .error "decryption failed: message authentication failure"

/-- Modelled from the spec: `signalDecrypt(message, address, session,
identity)` — look up the session (fatal if absent), authenticate against
the session's master secret; success marks the session acknowledged. -/
def signalDecrypt (inner : InnerMessage) (address : ProtocolAddress)
    (session : InMemorySessionStore) :
    Except String (String × InMemorySessionStore) :=
  match session.getSession address with
  | none => .error s!"session with {addrKey address} not found"
  | some record =>
    if inner.key = record.root then
      .ok (inner.body, session.saveSession address { record with pending := none })
    else .error "decryption failed: message authentication failure"

/-- `encryptMessage(plaintext, recipientName, stores)`: encrypt for
`recipientName` at device 1 using the sender's stores; returns the
serialized ciphertext with its type and the mutated stores. -/
def encryptMessage (plaintext : String) (recipientName : String)
    (stores : SignalStores) : Except String (EncryptionResult × SignalStores) :=
  match signalEncrypt plaintext ⟨recipientName, 1⟩ stores.session with
  | .error e => .error e
  | .ok (ciphertext, messageType, session) =>
    .ok ({ ciphertext := ciphertext, messageType := messageType },
         { stores with session := session })

/-- `decryptMessage(ciphertext, messageType, senderName, stores)`:
branch strictly on the passed message type — `PreKey` deserializes a
`PreKeySignalMessage` and runs the handshake decrypt against all five
stores, otherwise a `SignalMessage` steady-state decrypt against session
and identity stores only. -/
def decryptMessage (ciphertext : Ciphertext)
    (messageType : CiphertextMessageType) (senderName : String)
    (stores : SignalStores) : Except String (String × SignalStores) :=
  let address : ProtocolAddress := ⟨senderName, 1⟩
  match messageType with
  | .PreKey =>
    match ciphertext with
    | .preKeyMsg header inner => signalDecryptPreKey header inner address stores
    | .whisper _ => .error "invalid PreKeySignalMessage"
  | .SignalMessage =>
    match ciphertext with
    | .whisper inner =>
      match signalDecrypt inner address stores.session with
      | .error e => .error e
      | .ok (plaintext, session) =>
        .ok (plaintext, { stores with session := session })
    | .preKeyMsg _ _ => .error "invalid SignalMessage"

/-! ## Persistence (`src/lib/storage.ts`) -/

/-- `EncryptedMessageRecord`: one persisted message. -/
structure EncryptedMessageRecord where
  id : String
  sender : String
  ciphertext : B64 Ciphertext
  messageType : CiphertextMessageType
  timestamp : Nat
deriving DecidableEq, Repr

/-- `ChatMessage`: a decrypted, display-only message. -/
structure ChatMessage where
  id : String
  role : String
  content : String
  timestamp : Nat
deriving DecidableEq, Repr

/-- `SessionData`: the durable session file contents. -/
structure SessionData where
  version : Nat
  created : Nat
  model : String
  userIdentity : SerializedIdentityBundle
  assistantIdentity : SerializedIdentityBundle
  userStores : SerializedStores
  assistantStores : SerializedStores
  messages : List EncryptedMessageRecord
deriving DecidableEq, Repr

/-- `serializeStores(stores)`: serialize all five stores. -/
def serializeStores (stores : SignalStores) : SerializedStores :=
  { session := stores.session.serialize
    identity := stores.identity.serialize
    preKey := stores.preKey.serialize
    signedPreKey := stores.signedPreKey.serialize
    kyberPreKey := stores.kyberPreKey.serialize }

/-- `deserializeStores(data, stores)`: each store's `deserialize` restores
its state from the durable form. -/
def deserializeStores (data : SerializedStores) (stores : SignalStores) :
    SignalStores :=
  { session := stores.session.deserialize data.session
    identity := stores.identity.deserialize data.identity
    preKey := stores.preKey.deserialize data.preKey
    signedPreKey := stores.signedPreKey.deserialize data.signedPreKey
    kyberPreKey := stores.kyberPreKey.deserialize data.kyberPreKey }

/-- `createNewSession(dataDir, model)` minus file I/O: two fresh
identities, two fresh store collections, `populateStores` for both,
`establishSession`, then the `SessionData` with both identities and both
store collections serialized and an empty message list.  `r1`/`r2` are
the registration-id samples, `now` the clock, `g` the key generator. -/
def createNewSessionModel (r1 r2 : ℚ) (now : Nat) (model : String) (g : Nat) :
    Except String (SessionData × SignalStores × SignalStores × Nat) := do
  let (userIdentity, g) := createIdentityBundle r1 now g
  let (assistantIdentity, g) := createIdentityBundle r2 now g
  let userStores : SignalStores :=
    { session := ⟨[]⟩
      identity :=
        { idKeys := []
          localRegistrationId := userIdentity.registrationId
          identityKey := userIdentity.identityKeyPair.privateKey }
      preKey := ⟨[]⟩, signedPreKey := ⟨[]⟩, kyberPreKey := ⟨[]⟩ }
  let assistantStores : SignalStores :=
    { session := ⟨[]⟩
      identity :=
        { idKeys := []
          localRegistrationId := assistantIdentity.registrationId
          identityKey := assistantIdentity.identityKeyPair.privateKey }
      preKey := ⟨[]⟩, signedPreKey := ⟨[]⟩, kyberPreKey := ⟨[]⟩ }
  let (uPre, uSigned, uKyber, g) := populateStores userIdentity
    userStores.preKey userStores.signedPreKey userStores.kyberPreKey g
  let userStores :=
    { userStores with preKey := uPre, signedPreKey := uSigned, kyberPreKey := uKyber }
  let (aPre, aSigned, aKyber, g) := populateStores assistantIdentity
    assistantStores.preKey assistantStores.signedPreKey assistantStores.kyberPreKey g
  let assistantStores :=
    { assistantStores with
      preKey := aPre, signedPreKey := aSigned, kyberPreKey := aKyber }
  let (userStores, assistantStores, g) ←
    establishSession userIdentity assistantIdentity userStores assistantStores g
  let sessionData : SessionData :=
    { version := 1
      created := now
      model := model
      userIdentity := serializeIdentityBundle userIdentity
      assistantIdentity := serializeIdentityBundle assistantIdentity
      userStores := serializeStores userStores
      assistantStores := serializeStores assistantStores
      messages := [] }
  .ok (sessionData, userStores, assistantStores, g)

/-- `updateSessionMessages(dataDir, sessionData, stores)` minus the file
write: re-serializes the passed store collection into `userStores` of the
session data (and nothing else) before `saveSession` writes it.  The
returned value is both the new in-memory session data and the durable
copy that is written. -/
def updateSessionMessages (sessionData : SessionData) (stores : SignalStores) :
    SessionData :=
  { sessionData with userStores := serializeStores stores }

/-! ## The chat controller (`src/components/chat-view.tsx`) -/

/-- The outcome of one `loadMessages` decrypt loop pass. -/
structure LoadLoopOut where
  decrypted : List ChatMessage
  failedCount : Nat
  userStores : SignalStores
  assistantStores : SignalStores
deriving Repr

/-- The decrypt loop of the `loadMessages` effect: for each persisted
record, decrypt with the other party's stores (`sender === 'user'` uses
the assistant's stores and sender name `'user'`, otherwise the user's
stores and `'assistant'`); successes are collected in order, failures
increment `failedCount` and do not abort the loop. -/
def loadLoop (records : List EncryptedMessageRecord)
    (userStores assistantStores : SignalStores) : LoadLoopOut :=
  match records with
  | [] => ⟨[], 0, userStores, assistantStores⟩
  | record :: rest =>
    let stores := if record.sender = "user" then assistantStores else userStores
    let senderName := if record.sender = "user" then "user" else "assistant"
    match decryptMessage record.ciphertext.data record.messageType
        senderName stores with
    | .ok (plaintext, stores') =>
      let (u, a) := if record.sender = "user"
        then (userStores, stores') else (stores', assistantStores)
      let out := loadLoop rest u a
      { out with decrypted :=
          { id := record.id, role := record.sender, content := plaintext
            timestamp := record.timestamp } :: out.decrypted }
    | .error _ =>
      let out := loadLoop rest userStores assistantStores
      { out with failedCount := out.failedCount + 1 }

/-- The observable outcome of the `loadMessages` effect. -/
structure LoadOutcome where
  messages : List ChatMessage
  sessionData : SessionData
  userStores : SignalStores
  assistantStores : SignalStores
  errorBanner : Option String
  persisted : Option SessionData
  resetCalled : Bool
deriving Repr

/-- The `loadMessages` effect of `ChatView`: run the decrypt loop; when
at least one message existed, at least one decrypt failed and none
succeeded, clear the message list (updating `model` to the current prop),
persist via `updateSessionMessages` with the user stores and surface the
corruption banner; `onReset` is never called by this effect. -/
def loadMessagesModel (sessionData : SessionData)
    (userStores assistantStores : SignalStores) (model : String) : LoadOutcome :=
  let out := loadLoop sessionData.messages userStores assistantStores
  if out.failedCount > 0 ∧ out.decrypted.length = 0 ∧
      sessionData.messages.length > 0 then
    let updatedSessionData :=
      { sessionData with model := model, messages := [] }
    let persisted := updateSessionMessages updatedSessionData out.userStores
    { messages := out.decrypted
      sessionData := persisted
      userStores := out.userStores
      assistantStores := out.assistantStores
      errorBanner := some "Session corrupted. Message history cleared. Starting fresh."
      persisted := some persisted
      resetCalled := false }
  else
    { messages := out.decrypted
      sessionData := sessionData
      userStores := out.userStores
      assistantStores := out.assistantStores
      errorBanner := none
      persisted := none
      resetCalled := false }

/-- The outcome of one `handleSubmit` pass. -/
structure SubmitOutcome where
  sessionData : SessionData
  persisted : SessionData
  userStores : SignalStores
  assistantStores : SignalStores
  userRecord : EncryptedMessageRecord
  assistantRecord : EncryptedMessageRecord
deriving Repr

/-- The cryptographic/persistence core of `handleSubmit`: encrypt the
user's input to `'assistant'` with the user's stores, encrypt the
assistant's reply to `'user'` with the assistant's stores, append both
records to the session data, then persist via
`updateSessionMessages(dataDir, updatedSessionData, userStores)` — only
the user's store collection is passed to the persistence step. -/
def handleSubmitModel (sessionData : SessionData)
    (userStores assistantStores : SignalStores)
    (userInput assistantContent : String)
    (userMessageId assistantMessageId : String)
    (userTimestamp assistantTimestamp : Nat) :
    Except String SubmitOutcome := do
  let (encrypted, userStores) ← encryptMessage userInput "assistant" userStores
  let userRecord : EncryptedMessageRecord :=
    { id := userMessageId, sender := "user"
      ciphertext := ⟨encrypted.ciphertext⟩
      messageType := encrypted.messageType
      timestamp := userTimestamp }
  let (assistantEncrypted, assistantStores) ←
    encryptMessage assistantContent "user" assistantStores
  let assistantRecord : EncryptedMessageRecord :=
    { id := assistantMessageId, sender := "assistant"
      ciphertext := ⟨assistantEncrypted.ciphertext⟩
      messageType := assistantEncrypted.messageType
      timestamp := assistantTimestamp }
  let updatedSessionData :=
    { sessionData with
      messages := sessionData.messages ++ [userRecord, assistantRecord] }
  let persisted := updateSessionMessages updatedSessionData userStores
  .ok { sessionData := persisted
        persisted := persisted
        userStores := userStores
        assistantStores := assistantStores
        userRecord := userRecord
        assistantRecord := assistantRecord }

/-- An operation of the message codec layer, for the pre-key
irreversibility invariant: the layer over established sessions exposes
exactly `encryptMessage` and `decryptMessage`. -/
inductive CodecOp
  | encrypt (plaintext recipientName : String)
  | decrypt (ciphertext : Ciphertext) (messageType : CiphertextMessageType)
      (senderName : String)

/-- Run one codec operation; a raised error leaves the stores unchanged
(in-memory state stays the source of truth). -/
def runCodecOp (op : CodecOp) (stores : SignalStores) : SignalStores :=
  match op with
  | .encrypt plaintext recipientName =>
    match encryptMessage plaintext recipientName stores with
    | .ok (_, stores') => stores'
    | .error _ => stores
  | .decrypt ciphertext messageType senderName =>
    match decryptMessage ciphertext messageType senderName stores with
    | .ok (_, stores') => stores'
    | .error _ => stores

/-- Run a sequence of codec operations. -/
def runCodecOps (ops : List CodecOp) (stores : SignalStores) : SignalStores :=
  match ops with
  | [] => stores
  | op :: rest => runCodecOps rest (runCodecOp op stores)

/-! ## Map lemmas -/

theorem mapGet_mapSet_self [DecidableEq α] (m : List (α × β)) (k : α) (v : β) :
    mapGet (mapSet m k v) k = some v := by
  induction m with
  | nil => simp [mapGet, mapSet]
  | cons p rest ih =>
    by_cases h : p.1 = k
    · simp [mapSet, mapGet, h]
    · simp [mapSet, mapGet, h, ih]

theorem mapGet_mapSet_other [DecidableEq α] (m : List (α × β)) (k k' : α)
    (v : β) (h : k ≠ k') : mapGet (mapSet m k v) k' = mapGet m k' := by
  induction m with
  | nil => simp [mapGet, mapSet, h]
  | cons p rest ih =>
    by_cases hp : p.1 = k
    · simp [mapSet, mapGet, hp, h]
    · simp [mapSet, mapGet, hp, ih]

theorem mapGet_mapDel [DecidableEq α] (m : List (α × β)) (k k' : α) :
    mapGet (mapDel m k) k' = if k' = k then none else mapGet m k' := by
  induction m with
  | nil => simp [mapGet, mapDel]
  | cons p rest ih =>
    simp only [mapDel]
    by_cases hp : p.1 = k
    · rw [if_pos hp, ih]
      by_cases hk : k' = k
      · simp [hk]
      · have hpk : p.1 ≠ k' := by
          rw [hp]
          exact fun hc => hk hc.symm
        simp [mapGet, hk, hpk]
    · rw [if_neg hp]
      simp only [mapGet]
      by_cases hpk : p.1 = k'
      · have hk : ¬ k' = k := fun hc => hp (hpk.trans hc)
        simp [hpk, hk]
      · simp [hpk, ih]

theorem mapSet_append [DecidableEq α] (m : List (α × β)) (k : α) (v : β)
    (h : ∀ p ∈ m, p.1 ≠ k) : mapSet m k v = m ++ [(k, v)] := by
  induction m with
  | nil => simp [mapSet]
  | cons p rest ih =>
    have hp : p.1 ≠ k := h p (by simp)
    simp only [mapSet, if_neg hp, List.cons_append]
    rw [ih fun q hq => h q (by simp [hq])]

theorem foldl_mapSet_of_nodup [DecidableEq α] (l acc : List (α × β))
    (hd : (l.map Prod.fst).Nodup)
    (hdisj : ∀ p ∈ acc, ∀ q ∈ l, p.1 ≠ q.1) :
    l.foldl (fun m kv => mapSet m kv.1 kv.2) acc = acc ++ l := by
  induction l generalizing acc with
  | nil => simp
  | cons q rest ih =>
    rw [List.map_cons, List.nodup_cons] at hd
    obtain ⟨hnotin, hd'⟩ := hd
    have hset : mapSet acc q.1 q.2 = acc ++ [q] := by
      rw [mapSet_append acc q.1 q.2 fun p hp => hdisj p hp q (by simp)]
    have hq : ∀ x ∈ rest, q.1 ≠ x.1 := by
      intro x hx hcon
      exact hnotin (by
        rw [hcon]
        exact List.mem_map_of_mem Prod.fst hx)
    have hdisj' : ∀ p ∈ acc ++ [q], ∀ x ∈ rest, p.1 ≠ x.1 := by
      intro p hp x hx
      rcases List.mem_append.mp hp with hp | hp
      · exact hdisj p hp x (by simp [hx])
      · simp only [List.mem_singleton] at hp
        subst hp
        exact hq x hx
    calc (q :: rest).foldl (fun m kv => mapSet m kv.1 kv.2) acc
        = rest.foldl (fun m kv => mapSet m kv.1 kv.2) (acc ++ [q]) := by
          simp [List.foldl_cons, hset]
      _ = (acc ++ [q]) ++ rest := ih (acc ++ [q]) hd' hdisj'
      _ = acc ++ (q :: rest) := by simp

theorem foldl_mapSet_nil [DecidableEq α] (l : List (α × β))
    (hd : (l.map Prod.fst).Nodup) :
    l.foldl (fun m kv => mapSet m kv.1 kv.2) [] = l := by
  simpa using foldl_mapSet_of_nodup l [] hd (by simp)

/-! ## Pre-key absence is preserved by the codec layer -/

theorem encryptMessage_preKey_eq (plaintext recipientName : String)
    (stores stores' : SignalStores) (result : EncryptionResult)
    (h : encryptMessage plaintext recipientName stores = .ok (result, stores')) :
    stores'.preKey = stores.preKey := by
  unfold encryptMessage at h
  cases he : signalEncrypt plaintext ⟨recipientName, 1⟩ stores.session with
  | error e =>
    rw [he] at h
    exact absurd h (by simp)
  | ok triple =>
    obtain ⟨c, t, s⟩ := triple
    rw [he] at h
    simp only [Except.ok.injEq, Prod.mk.injEq] at h
    rw [← h.2]

theorem decryptMessage_preKey_absent (ciphertext : Ciphertext)
    (messageType : CiphertextMessageType) (senderName : String)
    (stores stores' : SignalStores) (plaintext : String) (i : Nat)
    (habs : mapGet stores.preKey.state i = none)
    (h : decryptMessage ciphertext messageType senderName stores
        = .ok (plaintext, stores')) :
    mapGet stores'.preKey.state i = none := by
  cases messageType with
  | SignalMessage =>
    cases ciphertext with
    | preKeyMsg header inner => exact absurd h (by simp [decryptMessage])
    | whisper inner =>
      unfold decryptMessage at h
      dsimp only at h
      cases hd : signalDecrypt inner ⟨senderName, 1⟩ stores.session with
      | error e =>
        rw [hd] at h
        exact absurd h (by simp)
      | ok pr =>
        obtain ⟨pt, sess⟩ := pr
        rw [hd] at h
        simp only [Except.ok.injEq, Prod.mk.injEq] at h
        rw [← h.2]
        exact habs
  | PreKey =>
    cases ciphertext with
    | whisper inner => exact absurd h (by simp [decryptMessage])
    | preKeyMsg header inner =>
      have fresh : ∀ _hf : signalDecryptPreKey.signalDecryptPreKeyFresh header inner
            ⟨senderName, 1⟩ stores = .ok (plaintext, stores'),
          mapGet stores'.preKey.state i = none := by
        intro hf
        unfold signalDecryptPreKey.signalDecryptPreKeyFresh at hf
        cases h1 : stores.signedPreKey.getSignedPreKey header.signedPreKeyId with
        | error e =>
          rw [h1] at hf
          exact absurd hf (by simp)
        | ok signedRecord =>
          rw [h1] at hf
          cases h2 : stores.preKey.getPreKey header.preKeyId with
          | error e =>
            rw [h2] at hf
            exact absurd hf (by simp)
          | ok preKeyRecord =>
            rw [h2] at hf
            cases h3 : stores.kyberPreKey.getKyberPreKey header.kyberPreKeyId with
            | error e =>
              rw [h3] at hf
              exact absurd hf (by simp)
            | ok kyberRecord =>
              rw [h3] at hf
              simp only at hf
              split at hf
              · simp only [Except.ok.injEq, Prod.mk.injEq] at hf
                rw [← hf.2]
                simp only [InMemoryPreKeyStore.removePreKey]
                rw [mapGet_mapDel]
                split
                · rfl
                · exact habs
              · exact absurd hf (by simp)
      have h' : signalDecryptPreKey header inner ⟨senderName, 1⟩ stores
          = .ok (plaintext, stores') := by
        rw [← h]
        unfold decryptMessage
        rfl
      unfold signalDecryptPreKey at h'
      cases hs : stores.session.getSession ⟨senderName, 1⟩ with
      | none =>
        rw [hs] at h'
        exact fresh h'
      | some record =>
        rw [hs] at h'
        simp only at h'
        by_cases hb : record.aliceBaseKey = header.baseKey
        · rw [if_pos hb] at h'
          by_cases hk : inner.key = record.root
          · rw [if_pos hk] at h'
            simp only [Except.ok.injEq, Prod.mk.injEq] at h'
            rw [← h'.2]
            exact habs
          · rw [if_neg hk] at h'
            exact absurd h' (by simp)
        · rw [if_neg hb] at h'
          exact fresh h'

theorem runCodecOp_preKey_absent (op : CodecOp) (stores : SignalStores) (i : Nat)
    (habs : mapGet stores.preKey.state i = none) :
    mapGet (runCodecOp op stores).preKey.state i = none := by
  cases op with
  | encrypt plaintext recipientName =>
    simp only [runCodecOp]
    cases h : encryptMessage plaintext recipientName stores with
    | error e => exact habs
    | ok result =>
      obtain ⟨res, stores'⟩ := result
      show mapGet stores'.preKey.state i = none
      rw [encryptMessage_preKey_eq plaintext recipientName stores stores' res h]
      exact habs
  | decrypt ciphertext messageType senderName =>
    simp only [runCodecOp]
    cases h : decryptMessage ciphertext messageType senderName stores with
    | error e => exact habs
    | ok result =>
      obtain ⟨pt, stores'⟩ := result
      show mapGet stores'.preKey.state i = none
      exact decryptMessage_preKey_absent ciphertext messageType senderName
        stores stores' pt i habs h

theorem runCodecOps_preKey_absent (ops : List CodecOp) (stores : SignalStores)
    (i : Nat) (habs : mapGet stores.preKey.state i = none) :
    mapGet (runCodecOps ops stores).preKey.state i = none := by
  induction ops generalizing stores with
  | nil => exact habs
  | cons op rest ih =>
    exact ih (runCodecOp op stores) (runCodecOp_preKey_absent op stores i habs)

/-! ## Concrete demonstration scenario

`createNewSession` run at concrete inputs: registration-id samples `0`,
clock `0`, model `"llama3.2"`, key generator starting at `0`.  The user's
key pairs are `0` (identity), `1` (signed pre-key), `2`..`11` (one-time
pre-keys), `12` (Kyber); the assistant's are `13`..`25`; `populateStores`
draws the fresh Kyber pairs `26` (user store) and `27` (assistant store);
`establishSession` draws base keys `28`/`30` and KEM coins `29`/`31`. -/

def demoCreate : Except String (SessionData × SignalStores × SignalStores × Nat) :=
  createNewSessionModel 0 0 0 "llama3.2" 0

/-- The message type of the user's first encryption on the fresh session. -/
def demoUserFirstMessageType : Except String CiphertextMessageType := do
  let (_, userStores, _, _) ← demoCreate
  let (result, _) ← encryptMessage "hello" "assistant" userStores
  .ok result.messageType

/-- User encrypts `"hello"` to the assistant, assistant decrypts it with
its own stores and the returned message type, on the fresh session. -/
def demoUserToAssistant : Except String String := do
  let (_, userStores, assistantStores, _) ← demoCreate
  let (result, _) ← encryptMessage "hello" "assistant" userStores
  let (plaintext, _) ←
    decryptMessage result.ciphertext result.messageType "user" assistantStores
  .ok plaintext

/-- Assistant encrypts `"hi back"` to the user, user decrypts it, on the
fresh session (roles swapped, no prior exchange). -/
def demoAssistantToUser : Except String String := do
  let (_, userStores, assistantStores, _) ← demoCreate
  let (result, _) ← encryptMessage "hi back" "user" assistantStores
  let (plaintext, _) ←
    decryptMessage result.ciphertext result.messageType "assistant" userStores
  .ok plaintext

/-- **C1** (code bug, evaluated at the failing input): on the freshly
created session, the first message of either party encrypts fine (as a
handshake-carrying `PreKey` message), but the other party's decrypt of it
raises an authentication failure instead of returning the plaintext — the
Kyber secret key that `populateStores` stored is a fresh pair that does
not match the Kyber public key `establishSession` advertised, so KEM
decapsulation yields a different shared secret than the sender
encapsulated.  The claimed round trip fails in both directions. -/
theorem freshSessionFirstMessageFailsToDecrypt :
    demoUserFirstMessageType = .ok .PreKey ∧
    demoUserToAssistant
      = .error "decryption failed: message authentication failure" ∧
    demoAssistantToUser
      = .error "decryption failed: message authentication failure" :=
  ⟨rfl, rfl, rfl⟩

/-- One `handleSubmit` exchange (`"hello"` / `"hello back"`) on the fresh
session. -/
def demoSubmit : Except String SubmitOutcome := do
  let (sessionData, userStores, assistantStores, _) ← demoCreate
  handleSubmitModel sessionData userStores assistantStores
    "hello" "hello back" "m1" "m2" 100 101

/-- **C2** (code bug, evaluated at the failing input):
`updateSessionMessages` re-serializes only the store collection it is
passed into the `userStores` field; the durable `assistantStores` field is
left untouched for every input.  Concretely, after one submit exchange on
the fresh session the persisted `assistantStores` still equals the
creation-time snapshot even though the assistant's in-memory ratchet has
advanced, so its current serialization differs from the durable copy —
the durable state of the assistant's collection diverges without bound. -/
theorem persistenceSkipsAssistantStores :
    (∀ (sessionData : SessionData) (stores : SignalStores),
      (updateSessionMessages sessionData stores).assistantStores
        = sessionData.assistantStores) ∧
    (demoSubmit.map fun out => out.persisted.assistantStores)
      = (demoCreate.map fun x => x.1.assistantStores) ∧
    (demoSubmit.map fun out =>
        serializeStores out.assistantStores == out.persisted.assistantStores)
      = .ok false :=
  ⟨fun _ _ => rfl, rfl, rfl⟩

/-- A concrete identity bundle: `createIdentityBundle` at sample `0`,
clock `0`, generator `0` (identity pair `0`, signed pre-key pair `1`,
one-time pre-key pairs `2`..`11`, Kyber pair `12`). -/
def demoBundle : IdentityBundle := (createIdentityBundle 0 0 0).1

/-- The Kyber store produced by `populateStores` on `demoBundle` with the
generator at `100`. -/
def demoPopulatedKyberStore : InMemoryKyberPreKeyStore :=
  (populateStores demoBundle ⟨[]⟩ ⟨[]⟩ ⟨[]⟩ 100).2.2.1

/-- **C3** (counterexample): the `KyberPreKeyRecord` that `populateStores`
saved for `demoBundle` holds the fresh pair `100`, while the bundle's own
Kyber key pair — the one `establishSession` advertises — is pair `12`.
The record is not built from the bundle's pair, refuting the claim. -/
theorem populateStoresDiscardsBundleKyberPair :
    demoPopulatedKyberStore.getKyberPreKey demoBundle.kyberPreKey.id
      = .ok { id := 1, timestamp := 0, pair := 100, signature := ⟨0, [12]⟩ } ∧
    demoBundle.kyberPreKey.publicKey = ⟨12⟩ ∧
    demoBundle.kyberPreKey.secretKey = ⟨12⟩ ∧
    (100 : Nat) ≠ 12 :=
  ⟨rfl, rfl, rfl, by decide⟩

/-- **C3** (amended): for every bundle, the `KyberPreKeyRecord` that
`populateStores` saves under the bundle's Kyber pre-key id carries the
bundle's id, timestamp and signature but a *freshly generated* KEM key
pair (the generator value `g`); whenever that fresh pair differs from the
bundle's advertised Kyber pair, the stored KEM secret key does not
correspond to the advertised Kyber public key. -/
theorem populateStoresStoresFreshKyberPair (bundle : IdentityBundle)
    (preKey : InMemoryPreKeyStore) (signedPreKey : InMemorySignedPreKeyStore)
    (kyberPreKey : InMemoryKyberPreKeyStore) (g : Nat) :
    ((populateStores bundle preKey signedPreKey kyberPreKey g).2.2.1).getKyberPreKey
        bundle.kyberPreKey.id
      = .ok { id := bundle.kyberPreKey.id
              timestamp := bundle.kyberPreKey.timestamp
              pair := g
              signature := bundle.kyberPreKey.signature } ∧
    (g ≠ bundle.kyberPreKey.publicKey.pair →
      ∀ record,
        ((populateStores bundle preKey signedPreKey kyberPreKey g).2.2.1).getKyberPreKey
            bundle.kyberPreKey.id = .ok record →
        record.pair ≠ bundle.kyberPreKey.publicKey.pair) := by
  have hmain : ((populateStores bundle preKey signedPreKey kyberPreKey
      g).2.2.1).getKyberPreKey bundle.kyberPreKey.id
      = .ok { id := bundle.kyberPreKey.id
              timestamp := bundle.kyberPreKey.timestamp
              pair := g
              signature := bundle.kyberPreKey.signature } := by
    simp only [populateStores, KEMKeyPair.generate,
      InMemoryKyberPreKeyStore.saveKyberPreKey,
      InMemoryKyberPreKeyStore.getKyberPreKey]
    rw [mapGet_mapSet_self]
  refine ⟨hmain, fun hne record hrec => ?_⟩
  rw [hmain] at hrec
  simp only [Except.ok.injEq] at hrec
  subst hrec
  exact hne

/-- **C3** (witness for the amended claim, at `demoBundle` with the
generator at `100`): the fresh pair `100` differs from the bundle's
advertised pair `12`, and the stored record's pair indeed differs from the
advertised Kyber public key's pair. -/
theorem populateStoresStoresFreshKyberPair_witness :
    (100 : Nat) ≠ demoBundle.kyberPreKey.publicKey.pair ∧
    ({ id := 1, timestamp := 0, pair := 100,
       signature := ⟨0, [12]⟩ } : KyberPreKeyRecord).pair
      ≠ demoBundle.kyberPreKey.publicKey.pair :=
  ⟨by decide,
   (populateStoresStoresFreshKyberPair demoBundle ⟨[]⟩ ⟨[]⟩ ⟨[]⟩ 100).2
     (by decide) _ rfl⟩

/-- Structure-eta round trip of the pre-key list through its serialized
form. -/
theorem preKeys_map_roundtrip (l : List PreKeyData) :
    l.map (fun pk =>
        ({ id := pk.id, publicKey := pk.publicKey
           privateKey := pk.privateKey } : PreKeyData)) = l := by
  induction l with
  | nil => rfl
  | cons a t ih => exact congrArg₂ List.cons rfl ih

/-- **C4**: `deserializeIdentityBundle` after `serializeIdentityBundle`
round-trips the registration id, the identity key pair, the signed
pre-key, every one-time pre-key and the Kyber pre-key's id, timestamp and
signature exactly, but takes the Kyber `publicKey` and `secretKey` from
two independent fresh `KEMKeyPair.generate()` calls (pairs `g` and
`g + 1`) instead of decoding the persisted Kyber keys — so the two
regenerated halves do not even belong to one pair, and the persisted
Kyber secret key is not the one in use after a restart. -/
theorem deserializeRegeneratesKyberRestRoundtrips
    (bundle : IdentityBundle) (g : Nat) :
    ((deserializeIdentityBundle (serializeIdentityBundle bundle) g).1.registrationId
        = bundle.registrationId) ∧
    ((deserializeIdentityBundle (serializeIdentityBundle bundle) g).1.identityKeyPair
        = bundle.identityKeyPair) ∧
    ((deserializeIdentityBundle (serializeIdentityBundle bundle) g).1.signedPreKey
        = bundle.signedPreKey) ∧
    ((deserializeIdentityBundle (serializeIdentityBundle bundle) g).1.preKeys
        = bundle.preKeys) ∧
    ((deserializeIdentityBundle (serializeIdentityBundle bundle) g).1.kyberPreKey.id
        = bundle.kyberPreKey.id) ∧
    ((deserializeIdentityBundle (serializeIdentityBundle bundle) g).1.kyberPreKey.timestamp
        = bundle.kyberPreKey.timestamp) ∧
    ((deserializeIdentityBundle (serializeIdentityBundle bundle) g).1.kyberPreKey.signature
        = bundle.kyberPreKey.signature) ∧
    ((deserializeIdentityBundle (serializeIdentityBundle bundle) g).1.kyberPreKey.publicKey
        = ⟨g⟩) ∧
    ((deserializeIdentityBundle (serializeIdentityBundle bundle) g).1.kyberPreKey.secretKey
        = ⟨g + 1⟩) ∧
    ((deserializeIdentityBundle (serializeIdentityBundle bundle) g).1.kyberPreKey.publicKey.pair
        ≠ (deserializeIdentityBundle (serializeIdentityBundle bundle) g).1.kyberPreKey.secretKey.pair) ∧
    ((deserializeIdentityBundle (serializeIdentityBundle bundle) g).2 = g + 2) := by
  refine ⟨rfl, rfl, rfl, ?_, rfl, rfl, rfl, rfl, rfl, ?_, rfl⟩
  · show (bundle.preKeys.map _).map _ = bundle.preKeys
    rw [List.map_map]
    exact preKeys_map_roundtrip bundle.preKeys
  · show g ≠ g + 1
    omega

/-- **C5**: once a handshake (`PreKey`-type) decrypt succeeds on a fresh
X3DH instance (no session yet for the sender's address), the referenced
one-time pre-key is removed: `getPreKey` on its id raises the
`KeyNotFoundError` (`` `pre-key ${id} not found` ``) in the resulting
stores, and it keeps raising it after any further sequence of operations
of the codec layer (`encryptMessage`/`decryptMessage`), since no
operation of that layer ever re-inserts a pre-key. -/
theorem consumedPreKeyIsGoneForever (stores stores' : SignalStores)
    (senderName plaintext : String) (header : PreKeyHeader)
    (inner : InnerMessage)
    (hNoSession : stores.session.getSession ⟨senderName, 1⟩ = none)
    (hOk : decryptMessage (.preKeyMsg header inner) .PreKey senderName stores
      = .ok (plaintext, stores')) :
    stores'.preKey.getPreKey header.preKeyId
      = .error s!"pre-key {header.preKeyId} not found" ∧
    ∀ ops : List CodecOp,
      (runCodecOps ops stores').preKey.getPreKey header.preKeyId
        = .error s!"pre-key {header.preKeyId} not found" := by
  have habs : mapGet stores'.preKey.state header.preKeyId = none := by
    have h' : signalDecryptPreKey header inner ⟨senderName, 1⟩ stores
        = .ok (plaintext, stores') := by
      rw [← hOk]
      unfold decryptMessage
      rfl
    unfold signalDecryptPreKey at h'
    rw [hNoSession] at h'
    unfold signalDecryptPreKey.signalDecryptPreKeyFresh at h'
    cases h1 : stores.signedPreKey.getSignedPreKey header.signedPreKeyId with
    | error e =>
      rw [h1] at h'
      exact absurd h' (by simp)
    | ok signedRecord =>
      rw [h1] at h'
      cases h2 : stores.preKey.getPreKey header.preKeyId with
      | error e =>
        rw [h2] at h'
        exact absurd h' (by simp)
      | ok preKeyRecord =>
        rw [h2] at h'
        cases h3 : stores.kyberPreKey.getKyberPreKey header.kyberPreKeyId with
        | error e =>
          rw [h3] at h'
          exact absurd h' (by simp)
        | ok kyberRecord =>
          rw [h3] at h'
          simp only at h'
          split at h'
          · simp only [Except.ok.injEq, Prod.mk.injEq] at h'
            rw [← h'.2]
            simp only [InMemoryPreKeyStore.removePreKey]
            rw [mapGet_mapDel]
            simp
          · exact absurd h' (by simp)
  constructor
  · unfold InMemoryPreKeyStore.getPreKey
    rw [habs]
  · intro ops
    unfold InMemoryPreKeyStore.getPreKey
    rw [runCodecOps_preKey_absent ops stores' header.preKeyId habs]

/-- A receiver ("assistant") store collection whose Kyber store holds the
pair actually advertised in its pre-key bundle (identity pair 13, signed
pre-key pair 14 under id 1, one-time pre-key pair 15 under id 1, Kyber
pair 25 under id 1) — the state `populateStores` *would* produce were the
bundle's own Kyber pair stored. -/
def matchedReceiverStores : SignalStores :=
  { session := ⟨[]⟩
    identity := ⟨[], 5, ⟨13⟩⟩
    preKey := ⟨[(1, ⟨1, 15, 15⟩)]⟩
    signedPreKey := ⟨[(1, ⟨1, 0, 14, 14, ⟨13, [14]⟩⟩)]⟩
    kyberPreKey := ⟨[(1, ⟨1, 0, 25, ⟨13, [25]⟩⟩)]⟩ }

/-- The pre-key bundle `matchedReceiverStores`'s owner advertises. -/
def matchedReceiverBundle : PreKeyBundle :=
  { registrationId := 5
    deviceId := 1
    preKeyId := 1
    preKeyPublic := ⟨15⟩
    signedPreKeyId := 1
    signedPreKeyPublic := ⟨14⟩
    signedPreKeySignature := ⟨13, [14]⟩
    identityKey := ⟨13⟩
    kyberPreKeyId := 1
    kyberPreKeyPublic := ⟨25⟩
    kyberPreKeySignature := ⟨13, [25]⟩ }

/-- A sender (identity pair 0, registration id 6) processes
`matchedReceiverBundle` (base key 28, KEM coin 29) and encrypts
`"hello"`: the resulting handshake ciphertext and its type. -/
def matchedCiphertext : Except String (Ciphertext × CiphertextMessageType) := do
  let (session, identity, _) ← processPreKeyBundle matchedReceiverBundle
    ⟨"assistant", 1⟩ ⟨[]⟩ ⟨[], 6, ⟨0⟩⟩ 28
  let (result, _) ← encryptMessage "hello" "assistant"
    { session := session, identity := identity
      preKey := ⟨[]⟩, signedPreKey := ⟨[]⟩, kyberPreKey := ⟨[]⟩ }
  .ok (result.ciphertext, result.messageType)

/-- The handshake header of `matchedCiphertext`. -/
def matchedHeader : PreKeyHeader :=
  { registrationId := 6, preKeyId := 1, signedPreKeyId := 1
    kyberPreKeyId := 1, kyberCiphertext := ⟨25, 29⟩
    baseKey := 28, identityKey := 0 }

/-- The inner message of `matchedCiphertext`. -/
def matchedInner : InnerMessage :=
  { body := "hello"
    key := { dh1 := dh 0 14, dh2 := dh 28 13, dh3 := dh 28 14
             dh4 := dh 28 15, ss := ⟨25, 29⟩ }
    counter := 0 }

/-- The stores after the receiver successfully decrypts
`matchedCiphertext`. -/
def matchedStoresAfterDecrypt : SignalStores :=
  match decryptMessage (.preKeyMsg matchedHeader matchedInner) .PreKey
      "user" matchedReceiverStores with
  | .ok (_, stores') => stores'
  | .error _ => matchedReceiverStores

/-- **C5** (witness): the handshake ciphertext really is the encryption
pipeline's output, the receiver's decrypt of it succeeds, and afterwards
`getPreKey 1` raises the not-found error — also after a further codec
operation. -/
theorem consumedPreKeyIsGoneForever_witness :
    matchedCiphertext = .ok (.preKeyMsg matchedHeader matchedInner, .PreKey) ∧
    decryptMessage (.preKeyMsg matchedHeader matchedInner) .PreKey
        "user" matchedReceiverStores
      = .ok ("hello", matchedStoresAfterDecrypt) ∧
    matchedStoresAfterDecrypt.preKey.getPreKey 1
      = .error "pre-key 1 not found" ∧
    (runCodecOps [.encrypt "more" "user"] matchedStoresAfterDecrypt).preKey.getPreKey 1
      = .error "pre-key 1 not found" := by
  have h := consumedPreKeyIsGoneForever matchedReceiverStores
    matchedStoresAfterDecrypt "user" "hello" matchedHeader matchedInner
    (by rfl) (by rfl)
  exact ⟨rfl, by rfl, h.1, h.2 [.encrypt "more" "user"]⟩

/-- An identity store with no previously stored key for any address. -/
def demoEmptyIdentityStore : InMemoryIdentityKeyStore := ⟨[], 5, ⟨7⟩⟩

/-- An identity store already holding `k` for the address `user::1`. -/
def demoIdentityStoreWith (k : PublicKey) : InMemoryIdentityKeyStore :=
  ⟨[("user::1", k)], 5, ⟨7⟩⟩

/-- **C6** (counterexample): saving a key for an address with *no*
previously stored key returns `ReplacedExisting` — the same value as a
genuine replacement and a different value from `NewOrUnchanged` — because
`changed` is initialized `true` and only a previously stored key can
refute it.  There is no distinct `New` result, refuting the claimed
three-way `{New, Unchanged, Replaced}` behaviour. -/
theorem saveIdentityFirstSaveReportsReplaced :
    (demoEmptyIdentityStore.saveIdentity ⟨"assistant", 1⟩ ⟨3⟩).2
      = .ReplacedExisting ∧
    IdentityChange.ReplacedExisting ≠ IdentityChange.NewOrUnchanged :=
  ⟨rfl, by decide⟩

/-- **C6** (amended): `saveIdentity` stores the key and reports one of
the library's *two* results by byte-comparing against any previously
stored key for that address: no previously stored key yields
`ReplacedExisting` (there is no separate `New` result), a byte-identical
key yields `NewOrUnchanged`, and a byte-different key yields
`ReplacedExisting`. -/
theorem saveIdentityCases (st : InMemoryIdentityKeyStore)
    (name : ProtocolAddress) (key : PublicKey) :
    ((st.saveIdentity name key).1.getIdentity name = some key) ∧
    (st.getIdentity name = none →
      (st.saveIdentity name key).2 = .ReplacedExisting) ∧
    (st.getIdentity name = some key →
      (st.saveIdentity name key).2 = .NewOrUnchanged) ∧
    (∀ currentKey, st.getIdentity name = some currentKey → currentKey ≠ key →
      (st.saveIdentity name key).2 = .ReplacedExisting) := by
  refine ⟨?_, ?_, ?_, ?_⟩
  · simp only [InMemoryIdentityKeyStore.saveIdentity,
      InMemoryIdentityKeyStore.getIdentity]
    exact mapGet_mapSet_self st.idKeys (addrKey name) key
  · intro h
    simp only [InMemoryIdentityKeyStore.getIdentity] at h
    simp [InMemoryIdentityKeyStore.saveIdentity, h]
  · intro h
    simp only [InMemoryIdentityKeyStore.getIdentity] at h
    simp only [InMemoryIdentityKeyStore.saveIdentity, h,
      PublicKey.serializeBytes, everyByteEq]
    simp
  · intro currentKey h hne
    simp only [InMemoryIdentityKeyStore.getIdentity] at h
    have hpair : currentKey.pair ≠ key.pair := by
      intro hc
      apply hne
      cases currentKey
      cases key
      simp_all
    simp only [InMemoryIdentityKeyStore.saveIdentity, h,
      PublicKey.serializeBytes, everyByteEq]
    simp [hpair]

/-- **C6** (witness for the amended claim): the three cases at concrete
stores and keys — empty store, same stored key, different stored key —
plus the stored-key readback. -/
theorem saveIdentityCases_witness :
    (demoEmptyIdentityStore.saveIdentity ⟨"user", 1⟩ ⟨3⟩).2
      = .ReplacedExisting ∧
    ((demoIdentityStoreWith ⟨3⟩).saveIdentity ⟨"user", 1⟩ ⟨3⟩).2
      = .NewOrUnchanged ∧
    ((demoIdentityStoreWith ⟨4⟩).saveIdentity ⟨"user", 1⟩ ⟨3⟩).2
      = .ReplacedExisting ∧
    (demoEmptyIdentityStore.saveIdentity ⟨"user", 1⟩ ⟨3⟩).1.getIdentity ⟨"user", 1⟩
      = some ⟨3⟩ := by
  refine ⟨(saveIdentityCases demoEmptyIdentityStore ⟨"user", 1⟩ ⟨3⟩).2.1 rfl,
    (saveIdentityCases (demoIdentityStoreWith ⟨3⟩) ⟨"user", 1⟩ ⟨3⟩).2.2.1 rfl,
    (saveIdentityCases (demoIdentityStoreWith ⟨4⟩) ⟨"user", 1⟩ ⟨3⟩).2.2.2
      ⟨4⟩ rfl (by decide),
    (saveIdentityCases demoEmptyIdentityStore ⟨"user", 1⟩ ⟨3⟩).1⟩

/-- Every record of the load loop is either decrypted or counted failed:
the loop never aborts early. -/
theorem loadLoop_length (records : List EncryptedMessageRecord)
    (userStores assistantStores : SignalStores) :
    (loadLoop records userStores assistantStores).decrypted.length
      + (loadLoop records userStores assistantStores).failedCount
      = records.length := by
  induction records generalizing userStores assistantStores with
  | nil => rfl
  | cons record rest ih =>
    simp only [loadLoop]
    cases hdec : decryptMessage record.ciphertext.data record.messageType
        (if record.sender = "user" then "user" else "assistant")
        (if record.sender = "user" then assistantStores else userStores) with
    | ok pr =>
      obtain ⟨plaintext, stores'⟩ := pr
      by_cases hs : record.sender = "user"
      · simp only [hs, if_true, List.length_cons]
        have := ih userStores stores'
        omega
      · simp only [hs, if_false, List.length_cons]
        have := ih stores' assistantStores
        omega
    | error e =>
      simp only [List.length_cons]
      have := ih userStores assistantStores
      omega

/-- When no record of the load loop decrypts, the loop leaves both store
collections untouched (failed decrypts do not mutate state). -/
theorem loadLoop_allFail_stores (records : List EncryptedMessageRecord)
    (userStores assistantStores : SignalStores)
    (h : (loadLoop records userStores assistantStores).decrypted = []) :
    (loadLoop records userStores assistantStores).userStores = userStores ∧
    (loadLoop records userStores assistantStores).assistantStores
      = assistantStores := by
  induction records generalizing userStores assistantStores with
  | nil => exact ⟨rfl, rfl⟩
  | cons record rest ih =>
    simp only [loadLoop] at h ⊢
    cases hdec : decryptMessage record.ciphertext.data record.messageType
        (if record.sender = "user" then "user" else "assistant")
        (if record.sender = "user" then assistantStores else userStores) with
    | ok pr =>
      rw [hdec] at h
      obtain ⟨plaintext, stores'⟩ := pr
      exact absurd h (by simp)
    | error e =>
      rw [hdec] at h
      exact ih userStores assistantStores h

/-- **C7**: when the persisted message list is non-empty and every
decrypt attempt over it fails, the controller clears the message list
(the persisted session data keeps both identities and the in-memory store
collections are untouched), surfaces the recoverable corruption banner,
and never calls `onReset` (no automatic re-create); when at least one
message decrypts, no banner is raised, nothing is persisted, the session
data is unchanged, the decrypted messages are exactly the loop's
successes, and every record was either decrypted or individually counted
failed — failures abort nothing. -/
theorem loadMessagesCorruptionHandling (sessionData : SessionData)
    (userStores assistantStores : SignalStores) (model : String) :
    ((loadLoop sessionData.messages userStores assistantStores).decrypted = [] →
      sessionData.messages ≠ [] →
      (loadMessagesModel sessionData userStores assistantStores model).sessionData.messages = [] ∧
      (loadMessagesModel sessionData userStores assistantStores model).userStores = userStores ∧
      (loadMessagesModel sessionData userStores assistantStores model).assistantStores = assistantStores ∧
      (loadMessagesModel sessionData userStores assistantStores model).sessionData.userIdentity = sessionData.userIdentity ∧
      (loadMessagesModel sessionData userStores assistantStores model).sessionData.assistantIdentity = sessionData.assistantIdentity ∧
      (loadMessagesModel sessionData userStores assistantStores model).errorBanner
        = some "Session corrupted. Message history cleared. Starting fresh." ∧
      (loadMessagesModel sessionData userStores assistantStores model).resetCalled = false) ∧
    ((loadLoop sessionData.messages userStores assistantStores).decrypted ≠ [] →
      (loadMessagesModel sessionData userStores assistantStores model).errorBanner = none ∧
      (loadMessagesModel sessionData userStores assistantStores model).persisted = none ∧
      (loadMessagesModel sessionData userStores assistantStores model).sessionData = sessionData ∧
      (loadMessagesModel sessionData userStores assistantStores model).messages
        = (loadLoop sessionData.messages userStores assistantStores).decrypted ∧
      (loadLoop sessionData.messages userStores assistantStores).decrypted.length
        + (loadLoop sessionData.messages userStores assistantStores).failedCount
        = sessionData.messages.length) := by
  constructor
  · intro hFail hNonEmpty
    have hlen := loadLoop_length sessionData.messages userStores assistantStores
    have hfc : (loadLoop sessionData.messages userStores assistantStores).failedCount
        = sessionData.messages.length := by
      rw [hFail] at hlen
      simpa using hlen
    have hpos : 0 < sessionData.messages.length := List.length_pos.mpr hNonEmpty
    have hcond : (loadLoop sessionData.messages userStores assistantStores).failedCount > 0 ∧
        (loadLoop sessionData.messages userStores assistantStores).decrypted.length = 0 ∧
        sessionData.messages.length > 0 := by
      refine ⟨by omega, by rw [hFail]; rfl, hpos⟩
    have hstores := loadLoop_allFail_stores sessionData.messages
      userStores assistantStores hFail
    unfold loadMessagesModel
    rw [if_pos hcond]
    refine ⟨rfl, hstores.1, hstores.2, rfl, rfl, rfl, rfl⟩
  · intro hSome
    have hcond : ¬ ((loadLoop sessionData.messages userStores assistantStores).failedCount > 0 ∧
        (loadLoop sessionData.messages userStores assistantStores).decrypted.length = 0 ∧
        sessionData.messages.length > 0) := by
      intro ⟨_, hzero, _⟩
      exact hSome (List.length_eq_zero.mp hzero)
    have hlen := loadLoop_length sessionData.messages userStores assistantStores
    unfold loadMessagesModel
    rw [if_neg hcond]
    exact ⟨rfl, rfl, rfl, rfl, hlen⟩

/-- An empty store collection (identity pair 7, registration id 5). -/
def demoEmptyStores : SignalStores :=
  ⟨⟨[]⟩, ⟨[], 5, ⟨7⟩⟩, ⟨[]⟩, ⟨[]⟩, ⟨[]⟩⟩

/-- A persisted record no store collection of the demo can decrypt. -/
def demoBadRecord : EncryptedMessageRecord :=
  { id := "r2", sender := "assistant"
    ciphertext := ⟨.whisper ⟨"x", ⟨(0, 0), (0, 0), (0, 0), (0, 0), ⟨0, 0⟩⟩, 0⟩⟩
    messageType := .SignalMessage, timestamp := 0 }

/-- The matched handshake ciphertext as a persisted record from the user. -/
def demoGoodRecord : EncryptedMessageRecord :=
  { id := "r1", sender := "user"
    ciphertext := ⟨.preKeyMsg matchedHeader matchedInner⟩
    messageType := .PreKey, timestamp := 0 }

/-- A persisted session whose only message is undecryptable. -/
def demoCorruptSessionData : SessionData :=
  { version := 1, created := 0, model := "llama3.2"
    userIdentity := serializeIdentityBundle demoBundle
    assistantIdentity := serializeIdentityBundle demoBundle
    userStores := serializeStores demoEmptyStores
    assistantStores := serializeStores demoEmptyStores
    messages := [demoBadRecord] }

/-- A persisted session with one decryptable and one undecryptable
message. -/
def demoMixedSessionData : SessionData :=
  { demoCorruptSessionData with messages := [demoGoodRecord, demoBadRecord] }

/-- **C7** (witness): on the all-fail session the message list is
cleared, the banner is raised, the in-memory stores are untouched and no
reset is attempted; on the mixed session no banner is raised and the one
failure did not abort the other message's restoration. -/
theorem loadMessagesCorruptionHandling_witness :
    (loadMessagesModel demoCorruptSessionData demoEmptyStores demoEmptyStores
      "llama3.2").sessionData.messages = [] ∧
    (loadMessagesModel demoCorruptSessionData demoEmptyStores demoEmptyStores
      "llama3.2").errorBanner
      = some "Session corrupted. Message history cleared. Starting fresh." ∧
    (loadMessagesModel demoCorruptSessionData demoEmptyStores demoEmptyStores
      "llama3.2").userStores = demoEmptyStores ∧
    (loadMessagesModel demoCorruptSessionData demoEmptyStores demoEmptyStores
      "llama3.2").resetCalled = false ∧
    (loadMessagesModel demoMixedSessionData demoEmptyStores matchedReceiverStores
      "llama3.2").errorBanner = none ∧
    (loadMessagesModel demoMixedSessionData demoEmptyStores matchedReceiverStores
      "llama3.2").messages = [⟨"r1", "user", "hello", 0⟩] ∧
    (loadLoop demoMixedSessionData.messages demoEmptyStores
        matchedReceiverStores).decrypted.length
      + (loadLoop demoMixedSessionData.messages demoEmptyStores
          matchedReceiverStores).failedCount
      = demoMixedSessionData.messages.length := by
  have h1 := (loadMessagesCorruptionHandling demoCorruptSessionData
    demoEmptyStores demoEmptyStores "llama3.2").1 (by rfl) (by decide)
  have h2 := (loadMessagesCorruptionHandling demoMixedSessionData
    demoEmptyStores matchedReceiverStores "llama3.2").2 (by decide)
  exact ⟨h1.1, h1.2.2.2.2.2.1, h1.2.1, h1.2.2.2.2.2.2,
    h2.1, h2.2.2.2.1.trans (by rfl), h2.2.2.2.2⟩

/-- **C8**: `get` on an id absent from the PreKey, SignedPreKey or
KyberPreKey store raises the fatal `KeyNotFoundError` (the thrown
`` `... not found` `` message), while `SessionStore.get` on an absent peer
address returns the explicit not-found result `none` instead of raising. -/
theorem absentKeyLookupBehaviour (preKey : InMemoryPreKeyStore)
    (signedPreKey : InMemorySignedPreKeyStore)
    (kyberPreKey : InMemoryKyberPreKeyStore)
    (session : InMemorySessionStore) (id : Nat) (address : ProtocolAddress)
    (h1 : mapGet preKey.state id = none)
    (h2 : mapGet signedPreKey.state id = none)
    (h3 : mapGet kyberPreKey.state id = none)
    (h4 : mapGet session.state (addrKey address) = none) :
    preKey.getPreKey id = .error s!"pre-key {id} not found" ∧
    signedPreKey.getSignedPreKey id
      = .error s!"signed pre-key {id} not found" ∧
    kyberPreKey.getKyberPreKey id
      = .error s!"kyber pre-key {id} not found" ∧
    session.getSession address = none := by
  refine ⟨?_, ?_, ?_, ?_⟩
  · unfold InMemoryPreKeyStore.getPreKey
    rw [h1]
  · unfold InMemorySignedPreKeyStore.getSignedPreKey
    rw [h2]
  · unfold InMemoryKyberPreKeyStore.getKyberPreKey
    rw [h3]
  · unfold InMemorySessionStore.getSession
    rw [h4]

/-- **C8** (witness): the four behaviours at the empty stores, id `1`,
address `user::1`. -/
theorem absentKeyLookupBehaviour_witness :
    (⟨[]⟩ : InMemoryPreKeyStore).getPreKey 1
      = .error "pre-key 1 not found" ∧
    (⟨[]⟩ : InMemorySignedPreKeyStore).getSignedPreKey 1
      = .error "signed pre-key 1 not found" ∧
    (⟨[]⟩ : InMemoryKyberPreKeyStore).getKyberPreKey 1
      = .error "kyber pre-key 1 not found" ∧
    (⟨[]⟩ : InMemorySessionStore).getSession ⟨"user", 1⟩ = none :=
  absentKeyLookupBehaviour ⟨[]⟩ ⟨[]⟩ ⟨[]⟩ ⟨[]⟩ 1 ⟨"user", 1⟩ rfl rfl rfl rfl

/-- The fold a store's `deserialize` runs undoes the base64 wrapping its
`serialize` added, for duplicate-free keys. -/
theorem serializeRoundtripList [DecidableEq α] (l : List (α × β))
    (h : (l.map Prod.fst).Nodup) :
    (l.map fun kv => (kv.1, (⟨kv.2⟩ : B64 β))).foldl
      (fun m kv => mapSet m kv.1 kv.2.data) [] = l := by
  rw [List.foldl_map]
  exact foldl_mapSet_nil l h

/-- **C9**: serializing a store collection and deserializing it into a
target collection whose identity store was constructed with the same
identity key and registration id (as `restoreSession` does) reproduces the
source collection's state exactly, for all five stores; and
`deserialize` fully replaces the target's prior state — the result's five
stores are independent of whatever the target held before. -/
theorem storesSerializeRoundtrip (s t : SignalStores)
    (hid : t.identity.identityKey = s.identity.identityKey)
    (hreg : t.identity.localRegistrationId = s.identity.localRegistrationId)
    (h1 : (s.session.state.map Prod.fst).Nodup)
    (h2 : (s.identity.idKeys.map Prod.fst).Nodup)
    (h3 : (s.preKey.state.map Prod.fst).Nodup)
    (h4 : (s.signedPreKey.state.map Prod.fst).Nodup)
    (h5 : (s.kyberPreKey.state.map Prod.fst).Nodup) :
    deserializeStores (serializeStores s) t = s ∧
    (∀ (data : SerializedStores) (t₁ t₂ : SignalStores),
      (deserializeStores data t₁).session = (deserializeStores data t₂).session ∧
      (deserializeStores data t₁).identity.idKeys
        = (deserializeStores data t₂).identity.idKeys ∧
      (deserializeStores data t₁).preKey = (deserializeStores data t₂).preKey ∧
      (deserializeStores data t₁).signedPreKey
        = (deserializeStores data t₂).signedPreKey ∧
      (deserializeStores data t₁).kyberPreKey
        = (deserializeStores data t₂).kyberPreKey) := by
  constructor
  · obtain ⟨⟨ss⟩, ⟨idk, rid, ik⟩, ⟨pk⟩, ⟨sk⟩, ⟨kk⟩⟩ := s
    obtain ⟨⟨ss'⟩, ⟨idk', rid', ik'⟩, ⟨pk'⟩, ⟨sk'⟩, ⟨kk'⟩⟩ := t
    simp only at hid hreg h1 h2 h3 h4 h5
    subst hid
    subst hreg
    simp only [deserializeStores, serializeStores,
      InMemorySessionStore.serialize, InMemorySessionStore.deserialize,
      InMemoryIdentityKeyStore.serialize, InMemoryIdentityKeyStore.deserialize,
      InMemoryPreKeyStore.serialize, InMemoryPreKeyStore.deserialize,
      InMemorySignedPreKeyStore.serialize, InMemorySignedPreKeyStore.deserialize,
      InMemoryKyberPreKeyStore.serialize, InMemoryKyberPreKeyStore.deserialize,
      SignalStores.mk.injEq, InMemorySessionStore.mk.injEq,
      InMemoryIdentityKeyStore.mk.injEq, InMemoryPreKeyStore.mk.injEq,
      InMemorySignedPreKeyStore.mk.injEq, InMemoryKyberPreKeyStore.mk.injEq]
    refine ⟨serializeRoundtripList ss h1, ?_, serializeRoundtripList pk h3,
      serializeRoundtripList sk h4, serializeRoundtripList kk h5⟩
    first
    | exact serializeRoundtripList idk h2
    | exact ⟨serializeRoundtripList idk h2, trivial⟩
    | exact ⟨serializeRoundtripList idk h2, trivial, trivial⟩
  · exact fun data t₁ t₂ => ⟨rfl, rfl, rfl, rfl, rfl⟩

/-- A store collection with stale state everywhere, sharing
`matchedReceiverStores`'s identity key and registration id. -/
def demoDirtyStores : SignalStores :=
  { session := ⟨[("old::1", ⟨⟨(0, 0), (0, 0), (0, 0), (0, 0), ⟨0, 0⟩⟩, 3, none, 9⟩)]⟩
    identity := ⟨[("peer::1", ⟨9⟩)], 5, ⟨13⟩⟩
    preKey := ⟨[(4, ⟨4, 1, 1⟩)]⟩
    signedPreKey := ⟨[(9, ⟨9, 0, 2, 2, ⟨0, [2]⟩⟩)]⟩
    kyberPreKey := ⟨[(3, ⟨3, 0, 6, ⟨0, [6]⟩⟩)]⟩ }

/-- **C9** (witness): round-tripping `matchedReceiverStores` through its
serialized form into the stale `demoDirtyStores` reproduces
`matchedReceiverStores` exactly. -/
theorem storesSerializeRoundtrip_witness :
    deserializeStores (serializeStores matchedReceiverStores) demoDirtyStores
      = matchedReceiverStores :=
  (storesSerializeRoundtrip matchedReceiverStores demoDirtyStores rfl rfl
    (by decide) (by decide) (by decide) (by decide) (by decide)).1

/-- **C10** (counterexample): the sampling call `generateRegistrationId`
draws from is `Math.random()` — JavaScript's non-cryptographic PRNG — not
a cryptographically secure source, refuting the claim's security
requirement. -/
theorem registrationIdSourceIsMathRandom :
    generateRegistrationIdSource = RandomSource.mathRandom ∧
    RandomSource.mathRandom ≠ RandomSource.cryptoSecure :=
  ⟨rfl, by decide⟩

/-- **C10** (amended): for every `Math.random()` sample in `[0, 1)`, the
produced registration id lies in the closed range `[1, 16380]` — but it is
selected with `Math.random()`, a source that is not cryptographically
secure. -/
theorem registrationIdInRange (r : ℚ) (h0 : 0 ≤ r) (h1 : r < 1) :
    1 ≤ generateRegistrationId r ∧ generateRegistrationId r ≤ 16380 ∧
    generateRegistrationIdSource = RandomSource.mathRandom := by
  have hm0 : (0 : ℚ) ≤ r * 16380 := by positivity
  have hm1 : r * 16380 < 16380 := by nlinarith
  have hf0 : (0 : ℤ) ≤ ⌊r * 16380⌋ := Int.floor_nonneg.mpr hm0
  have hf1 : ⌊r * 16380⌋ < 16380 := by
    rw [Int.floor_lt]
    exact_mod_cast hm1
  unfold generateRegistrationId
  refine ⟨?_, ?_, rfl⟩ <;> omega

/-- **C10** (witness): the bounds at the sample `1/2`. -/
theorem registrationIdInRange_witness :
    1 ≤ generateRegistrationId (1 / 2) ∧
    generateRegistrationId (1 / 2) ≤ 16380 ∧
    generateRegistrationIdSource = RandomSource.mathRandom :=
  registrationIdInRange (1 / 2) (by norm_num) (by norm_num)

end SignalChat
